import Mathlib

/-!
Saber client session engine.

A shallow embedding of `SaberClient` (both revisions of
`saber/client/saber_client.cc`) as pure state-passing functions.  Every side
effect the C++ code performs on its collaborators (the TCP client, the
`Messager`, the event loops) is appended to a trace kept in the client state,
so that statements about "what was sent" or "which callback was dispatched"
become statements about that trace.

Aborting executions (a failed `assert`, or `front()` / `pop()` on an empty
`std::queue`) are modelled by `none`.
-/

namespace saber

/-! ## Wire-level data -/

/-- Modelled from the spec: the `MessageType` enum of the generated protobuf
header `saber/proto/saber.pb.h`, which is not part of the sources.  The
constructors are the fourteen types of section 6 of the specification. -/
inductive MessageType where
  | MT_CONNECT
  | MT_NOTIFICATION
  | MT_CREATE
  | MT_DELETE
  | MT_EXISTS
  | MT_GETDATA
  | MT_SETDATA
  | MT_GETACL
  | MT_SETACL
  | MT_GETCHILDREN
  | MT_MASTER
  | MT_PING
  | MT_SET_WATCHES
  | MT_CLOSE
  deriving DecidableEq, Repr

/-- The wire message `SaberMessage { type; data; extra_data }`. -/
structure SaberMessage where
  type : MessageType
  data : String
  extra_data : String
  deriving DecidableEq, Repr

/-- An endpoint, `voyager::SockAddr(host, port)`. -/
structure SockAddr where
  host : String
  port : Nat
  deriving DecidableEq, Repr

/-- The protobuf `Master { host; port }` message. -/
structure Master where
  host : String
  port : Nat
  deriving DecidableEq, Repr

/-- Modelled from the spec: `WatchedEventType` of section 6. -/
inductive EventType where
  | ET_NONE
  | ET_NODE_CREATED
  | ET_NODE_DELETED
  | ET_NODE_DATA_CHANGED
  | ET_NODE_CHILDREN_CHANGED
  deriving DecidableEq, Repr

/-- Modelled from the spec: `SessionState` of section 6. -/
inductive SessionState where
  | SS_DISCONNECTED
  | SS_CONNECTED
  | SS_AUTH_FAILED
  | SS_EXPIRED
  deriving DecidableEq, Repr

/-- The protobuf `WatchedEvent { type; state; path }`. -/
structure WatchedEvent where
  type : EventType
  state : SessionState
  path : String
  deriving DecidableEq, Repr

/-- The protobuf `ConnectResponse`, of which the client reads `session_id`
and `timeout`. -/
structure ConnectResponse where
  session_id : Nat
  timeout : Nat
  deriving DecidableEq, Repr

/-- A parsed operation response (`CreateResponse`, `ExistsResponse`, ...): the
client itself only ever reads `code()`; the rest is handed to the callback. -/
structure Response where
  code : Nat
  body : String
  deriving DecidableEq, Repr

/-- The status code `RC_OK` (0 according to section 6 of the specification). -/
def RC_OK : Nat := 0

/-- The generated protobuf (de)serialisers the client calls.  They are not part
of the sources and are taken as parameters. -/
structure Proto where
  /-- Serialisation of a `ConnectRequest` whose `session_id` is the argument. -/
  ConnectRequest_Serialize : Nat → String
  /-- Parser `ConnectResponse::ParseFromString`. -/
  ConnectResponse_Parse : String → ConnectResponse
  /-- Parser `ParseFromString` of the response class of a message type. -/
  Response_Parse : MessageType → String → Response
  /-- Parser `Master::ParseFromString`. -/
  Master_Parse : String → Master
  /-- Parser `WatchedEvent::ParseFromString`. -/
  WatchedEvent_Parse : String → WatchedEvent

/-- A `Watcher*`; the null pointer is `none` where one may be absent. -/
abbrev Watcher := Nat

/-- A `voyager::TcpConnectionPtr` (the identity of one established connection). -/
abbrev ConnId := Nat

/-- The typed request handed to an API call (`CreateRequest`, ...): the client
reads `path()` and `SerializeAsString()`. -/
structure ApiRequest where
  path : String
  serialized : String
  deriving DecidableEq, Repr

/-- The side effects of the client on its collaborators, in program order. -/
inductive Effect where
  /-- A new `TcpClient` for `addr` replaces `client_` and starts connecting. -/
  | connect (addr : SockAddr)
  /-- The call `client_->Close()`. -/
  | close
  /-- The call `SendMessage(conn, message)`; `conn` is `none` for a null pointer. -/
  | send (conn : Option ConnId) (message : SaberMessage)
  /-- The task `request->callback(request->path, request->context, *response)`. -/
  | callback (type : MessageType) (cb : Nat) (path : String) (context : Nat)
      (response : Response)
  /-- The task calling `Process(event)` on every watcher of the triggered set. -/
  | process (watchers : List Watcher) (event : WatchedEvent)
  /-- The call `SleepForMicroseconds(us)`. -/
  | sleep (us : Nat)
  deriving DecidableEq, Repr

/-! ## Collaborators that are not part of the sources -/

/-- Modelled from the spec: `ServerManager` (section 4.6; the class lives in
`saber/client/server_manager_impl.h`, which is not part of the sources).  An
ordered list of candidate endpoints and a round-robin pointer. -/
structure ServerManager where
  servers : List SockAddr
  next : Nat
  deriving DecidableEq, Repr

/-- Modelled from the spec: `ServerManager::GetNext`, "returns the next
endpoint in round-robin". -/
def ServerManager.GetNext (m : ServerManager) : SockAddr × ServerManager :=
  (m.servers.getD (m.next % m.servers.length) ⟨"", 0⟩, { m with next := m.next + 1 })

/-- Modelled from the spec: `ServerManager::OnConnection`, "resets the
round-robin pointer so the next failure starts fresh". -/
def ServerManager.OnConnection (m : ServerManager) : ServerManager :=
  { m with next := 0 }

/-- Modelled from the spec: `ClientWatchManager` (section 4.4; the class lives
in `saber/client/client_watch_manager.h`, which is not part of the sources).
Three maps from path to watcher set, kept as association lists of
`(path, watcher)` pairs, the default watcher, and the `auto_watch_reset`
option it is constructed with. -/
structure ClientWatchManager where
  auto_watch_reset : Bool
  default_watcher : Option Watcher
  data_watches : List (String × Watcher)
  exist_watches : List (String × Watcher)
  child_watches : List (String × Watcher)
  deriving DecidableEq, Repr

/-- Modelled from the spec: the constructor `ClientWatchManager(auto_watch_reset)`. -/
def ClientWatchManager.new (auto_watch_reset : Bool) : ClientWatchManager :=
  { auto_watch_reset := auto_watch_reset, default_watcher := none,
    data_watches := [], exist_watches := [], child_watches := [] }

/-- Modelled from the spec: `ClientWatchManager::SetDefaultWatcher`. -/
def ClientWatchManager.SetDefaultWatcher (m : ClientWatchManager)
    (w : Option Watcher) : ClientWatchManager :=
  { m with default_watcher := w }

/-- Insertion of a `(path, watcher)` pair into a map from path to watcher set. -/
def addWatch (ws : List (String × Watcher)) (path : String) (w : Watcher) :
    List (String × Watcher) :=
  if (path, w) ∈ ws then ws else ws ++ [(path, w)]

/-- Modelled from the spec: `ClientWatchManager::AddDataWatch`. -/
def ClientWatchManager.AddDataWatch (m : ClientWatchManager) (path : String)
    (w : Watcher) : ClientWatchManager :=
  { m with data_watches := addWatch m.data_watches path w }

/-- Modelled from the spec: `ClientWatchManager::AddExistWatch`. -/
def ClientWatchManager.AddExistWatch (m : ClientWatchManager) (path : String)
    (w : Watcher) : ClientWatchManager :=
  { m with exist_watches := addWatch m.exist_watches path w }

/-- Modelled from the spec: `ClientWatchManager::AddChildWatch`. -/
def ClientWatchManager.AddChildWatch (m : ClientWatchManager) (path : String)
    (w : Watcher) : ClientWatchManager :=
  { m with child_watches := addWatch m.child_watches path w }

/-- The watchers registered on `path` in one map. -/
def watchersOn (ws : List (String × Watcher)) (path : String) : List Watcher :=
  (ws.filter (fun e => e.1 == path)).map Prod.snd

/-- One map with every entry of `path` removed. -/
def dropPath (ws : List (String × Watcher)) (path : String) :
    List (String × Watcher) :=
  ws.filter (fun e => !(e.1 == path))

/-- Modelled from the spec: `ClientWatchManager::Trigger` (section 4.4).  It
returns the watchers to fire and removes them from the maps; an event of type
NONE is a state change and goes to the default watcher. -/
def ClientWatchManager.Trigger (m : ClientWatchManager) (e : WatchedEvent) :
    List Watcher × ClientWatchManager :=
  match e.type with
  | .ET_NONE => (m.default_watcher.toList, m)
  | .ET_NODE_CREATED =>
      (watchersOn m.data_watches e.path ++ watchersOn m.exist_watches e.path,
       { m with data_watches := dropPath m.data_watches e.path,
                exist_watches := dropPath m.exist_watches e.path })
  | .ET_NODE_DELETED =>
      (watchersOn m.data_watches e.path ++ watchersOn m.exist_watches e.path
         ++ watchersOn m.child_watches e.path,
       { m with data_watches := dropPath m.data_watches e.path,
                exist_watches := dropPath m.exist_watches e.path,
                child_watches := dropPath m.child_watches e.path })
  | .ET_NODE_DATA_CHANGED =>
      (watchersOn m.data_watches e.path ++ watchersOn m.exist_watches e.path,
       { m with data_watches := dropPath m.data_watches e.path,
                exist_watches := dropPath m.exist_watches e.path })
  | .ET_NODE_CHILDREN_CHANGED =>
      (watchersOn m.child_watches e.path,
       { m with child_watches := dropPath m.child_watches e.path })

/-- The eight operations of the client API. -/
inductive Op where
  | Create
  | Delete
  | Exists
  | GetData
  | SetData
  | GetACL
  | SetACL
  | GetChildren
  deriving DecidableEq, Repr

/-- The message type an operation's request and response carry. -/
def Op.type : Op → MessageType
  | .Create => .MT_CREATE
  | .Delete => .MT_DELETE
  | .Exists => .MT_EXISTS
  | .GetData => .MT_GETDATA
  | .SetData => .MT_SETDATA
  | .GetACL => .MT_GETACL
  | .SetACL => .MT_SETACL
  | .GetChildren => .MT_GETCHILDREN

/-! ## The client, newer revision (`src/saber/client/saber_client.cc`) -/

/-- The pending request `Request<Callback>{path, context, watcher, callback}`;
the callback is identified by a number. -/
structure Request where
  path : String
  context : Nat
  watcher : Option Watcher
  callback : Nat
  deriving DecidableEq, Repr

/-- The fields of `ClientOptions` the constructor reads. -/
structure ClientOptions where
  root : String
  server_manager : ServerManager
  auto_watch_reset : Bool
  deriving DecidableEq, Repr

/-- The state of a `SaberClient`: its data members, and the trace of the
effects it has had on its collaborators so far. -/
structure SaberClient where
  has_started : Bool
  root : String
  server_manager : ServerManager
  session_id : Nat
  timeout : Nat
  master : Master
  watch_manager : ClientWatchManager
  /-- The member `client_`: `none` while null, else the endpoint of the `TcpClient`. -/
  client : Option SockAddr
  /-- The member `conn_wp_`: the connection the weak pointer refers to. -/
  conn_wp : Option ConnId
  create_queue : List Request
  delete_queue : List Request
  exists_queue : List Request
  get_data_queue : List Request
  set_data_queue : List Request
  get_acl_queue : List Request
  set_acl_queue : List Request
  children_queue : List Request
  outgoing_queue : List SaberMessage
  trace : List Effect
  deriving DecidableEq, Repr

namespace SaberClient

/-- The constructor `SaberClient::SaberClient(loop, options, watcher)`.  The
member `timeout_` has no initialiser; it is never read and is modelled as 0. -/
def new (options : ClientOptions) (watcher : Option Watcher) : SaberClient :=
  { has_started := false
    root := options.root
    server_manager := options.server_manager
    session_id := 0
    timeout := 0
    master := ⟨"", 0⟩
    watch_manager :=
      (ClientWatchManager.new options.auto_watch_reset).SetDefaultWatcher watcher
    client := none
    conn_wp := none
    create_queue := []
    delete_queue := []
    exists_queue := []
    get_data_queue := []
    set_data_queue := []
    get_acl_queue := []
    set_acl_queue := []
    children_queue := []
    outgoing_queue := []
    trace := [] }

/-- The queue of pending requests of one operation. -/
def queue (s : SaberClient) : Op → List Request
  | .Create => s.create_queue
  | .Delete => s.delete_queue
  | .Exists => s.exists_queue
  | .GetData => s.get_data_queue
  | .SetData => s.set_data_queue
  | .GetACL => s.get_acl_queue
  | .SetACL => s.set_acl_queue
  | .GetChildren => s.children_queue

/-- The method `SaberClient::Connect(addr)`. -/
def Connect (s : SaberClient) (addr : SockAddr) : SaberClient :=
  { s with client := some addr, trace := s.trace ++ [Effect.connect addr] }

/-- The method `SaberClient::Close()`: `assert(client_); client_->Close()`. -/
def Close (s : SaberClient) : Option SaberClient :=
  match s.client with
  | none => none
  | some _ => some { s with trace := s.trace ++ [Effect.close] }

/-- The method `SaberClient::Start()`. -/
def Start (s : SaberClient) : SaberClient :=
  if s.has_started = false then
    let next := s.server_manager.GetNext
    Connect { s with has_started := true, server_manager := next.2 } next.1
  else s

/-- The method `SaberClient::Stop()`. -/
def Stop (s : SaberClient) : Option SaberClient :=
  if s.has_started = true then
    Close { s with has_started := false }
  else some s

/-- The method `SaberClient::TrySendInLoop(message)`. -/
def TrySendInLoop (s : SaberClient) (message : SaberMessage) : SaberClient :=
  { s with trace := s.trace ++ [Effect.send s.conn_wp message],
           outgoing_queue := s.outgoing_queue ++ [message] }

/-- The method `SaberClient::Create(request, context, cb)`. -/
def Create (s : SaberClient) (request : ApiRequest) (context : Nat) (cb : Nat) :
    SaberClient :=
  let message : SaberMessage := ⟨.MT_CREATE, request.serialized, s.root⟩
  let r : Request := ⟨request.path, context, none, cb⟩
  TrySendInLoop { s with create_queue := s.create_queue ++ [r] } message

/-- The method `SaberClient::Delete(request, context, cb)`. -/
def Delete (s : SaberClient) (request : ApiRequest) (context : Nat) (cb : Nat) :
    SaberClient :=
  let message : SaberMessage := ⟨.MT_DELETE, request.serialized, s.root⟩
  let r : Request := ⟨request.path, context, none, cb⟩
  TrySendInLoop { s with delete_queue := s.delete_queue ++ [r] } message

/-- The method `SaberClient::Exists(request, watcher, context, cb)`. -/
def Exists (s : SaberClient) (request : ApiRequest) (watcher : Option Watcher)
    (context : Nat) (cb : Nat) : SaberClient :=
  let message : SaberMessage := ⟨.MT_EXISTS, request.serialized, s.root⟩
  let r : Request := ⟨request.path, context, watcher, cb⟩
  TrySendInLoop { s with exists_queue := s.exists_queue ++ [r] } message

/-- The method `SaberClient::GetData(request, watcher, context, cb)`. -/
def GetData (s : SaberClient) (request : ApiRequest) (watcher : Option Watcher)
    (context : Nat) (cb : Nat) : SaberClient :=
  let message : SaberMessage := ⟨.MT_GETDATA, request.serialized, s.root⟩
  let r : Request := ⟨request.path, context, watcher, cb⟩
  TrySendInLoop { s with get_data_queue := s.get_data_queue ++ [r] } message

/-- The method `SaberClient::SetData(request, context, cb)`. -/
def SetData (s : SaberClient) (request : ApiRequest) (context : Nat) (cb : Nat) :
    SaberClient :=
  let message : SaberMessage := ⟨.MT_SETDATA, request.serialized, s.root⟩
  let r : Request := ⟨request.path, context, none, cb⟩
  TrySendInLoop { s with set_data_queue := s.set_data_queue ++ [r] } message

/-- The method `SaberClient::GetACL(request, context, cb)`. -/
def GetACL (s : SaberClient) (request : ApiRequest) (context : Nat) (cb : Nat) :
    SaberClient :=
  let message : SaberMessage := ⟨.MT_GETACL, request.serialized, s.root⟩
  let r : Request := ⟨request.path, context, none, cb⟩
  TrySendInLoop { s with get_acl_queue := s.get_acl_queue ++ [r] } message

/-- The method `SaberClient::SetACL(request, context, cb)`. -/
def SetACL (s : SaberClient) (request : ApiRequest) (context : Nat) (cb : Nat) :
    SaberClient :=
  let message : SaberMessage := ⟨.MT_SETACL, request.serialized, s.root⟩
  let r : Request := ⟨request.path, context, none, cb⟩
  TrySendInLoop { s with set_acl_queue := s.set_acl_queue ++ [r] } message

/-- The method `SaberClient::GetChildren(request, watcher, context, cb)`. -/
def GetChildren (s : SaberClient) (request : ApiRequest) (watcher : Option Watcher)
    (context : Nat) (cb : Nat) : SaberClient :=
  let message : SaberMessage := ⟨.MT_GETCHILDREN, request.serialized, s.root⟩
  let r : Request := ⟨request.path, context, watcher, cb⟩
  TrySendInLoop { s with children_queue := s.children_queue ++ [r] } message

/-- The CONNECT handshake message `OnConnection` builds. -/
def connectMessage (P : Proto) (s : SaberClient) : SaberMessage :=
  ⟨.MT_CONNECT, P.ConnectRequest_Serialize s.session_id, s.root⟩

/-- The method `SaberClient::OnConnection(p)`. -/
def OnConnection (P : Proto) (s : SaberClient) (p : ConnId) : SaberClient :=
  { s with conn_wp := some p,
           server_manager := s.server_manager.OnConnection,
           trace := s.trace ++ [Effect.send (some p) (connectMessage P s)]
             ++ s.outgoing_queue.map (fun i => Effect.send (some p) i) }

/-- The method `SaberClient::OnFailue()`. -/
def OnFailue (s : SaberClient) : SaberClient :=
  let s1 :=
    if s.has_started = true then
      let next := s.server_manager.GetNext
      Connect { s with server_manager := next.2 } next.1
    else s
  { s1 with master := { s1.master with host := "" } }

/-- The method `SaberClient::OnClose(p)`; the port of the hinted master goes
through `static_cast<uint16_t>`. -/
def OnClose (s : SaberClient) (_p : ConnId) : SaberClient :=
  if s.has_started = true then
    if s.master.host ≠ "" then
      Connect s ⟨s.master.host, s.master.port % 65536⟩
    else
      let s1 := { s with trace := s.trace ++ [Effect.sleep 1000] }
      let next := s1.server_manager.GetNext
      Connect { s1 with server_manager := next.2 } next.1
  else s

/-- The method `SaberClient::TriggerWatchers(event)`. -/
def TriggerWatchers (s : SaberClient) (event : WatchedEvent) : SaberClient :=
  let result := s.watch_manager.Trigger event
  { s with watch_manager := result.2,
           trace := s.trace ++ [Effect.process result.1 event] }

/-- The task posted for a response: the callback of `request` on its own path
and context and on the parsed response. -/
def callbackTask (type : MessageType) (request : Request) (response : Response) :
    Effect :=
  Effect.callback type request.callback request.path request.context response

/-- The `switch (type)` of `SaberClient::HandleMessage`, with the value of `res`
it leaves.  The `default` label starts with `assert(false)`: it aborts. -/
def HandleMessage_switch (P : Proto) (s : SaberClient) (message : SaberMessage) :
    Option (SaberClient × Bool) :=
  match message.type with
  | .MT_NOTIFICATION =>
      some (TriggerWatchers s (P.WatchedEvent_Parse message.data), true)
  | .MT_CONNECT =>
      let response := P.ConnectResponse_Parse message.data
      let s1 := { s with session_id := response.session_id, timeout := response.timeout }
      some (TriggerWatchers s1 ⟨.ET_NONE, .SS_CONNECTED, ""⟩, true)
  | .MT_CREATE =>
      let response := P.Response_Parse .MT_CREATE message.data
      match s.create_queue with
      | [] => none
      | r :: rest =>
          some ({ s with create_queue := rest,
                         trace := s.trace ++ [callbackTask .MT_CREATE r response] }, true)
  | .MT_DELETE =>
      let response := P.Response_Parse .MT_DELETE message.data
      match s.delete_queue with
      | [] => none
      | r :: rest =>
          some ({ s with delete_queue := rest,
                         trace := s.trace ++ [callbackTask .MT_DELETE r response] }, true)
  | .MT_EXISTS =>
      let response := P.Response_Parse .MT_EXISTS message.data
      match s.exists_queue with
      | [] => none
      | r :: rest =>
          let wm :=
            match r.watcher with
            | some w =>
                if response.code = RC_OK then s.watch_manager.AddDataWatch r.path w
                else s.watch_manager.AddExistWatch r.path w
            | none => s.watch_manager
          some ({ s with watch_manager := wm, exists_queue := rest,
                         trace := s.trace ++ [callbackTask .MT_EXISTS r response] }, true)
  | .MT_GETDATA =>
      let response := P.Response_Parse .MT_GETDATA message.data
      match s.get_data_queue with
      | [] => none
      | r :: rest =>
          let wm :=
            match r.watcher with
            | some w =>
                if response.code = RC_OK then s.watch_manager.AddDataWatch r.path w
                else s.watch_manager
            | none => s.watch_manager
          some ({ s with watch_manager := wm, get_data_queue := rest,
                         trace := s.trace ++ [callbackTask .MT_GETDATA r response] }, true)
  | .MT_SETDATA =>
      let response := P.Response_Parse .MT_SETDATA message.data
      match s.set_data_queue with
      | [] => none
      | r :: rest =>
          some ({ s with set_data_queue := rest,
                         trace := s.trace ++ [callbackTask .MT_SETDATA r response] }, true)
  | .MT_GETACL =>
      let response := P.Response_Parse .MT_GETACL message.data
      match s.get_acl_queue with
      | [] => none
      | r :: rest =>
          some ({ s with get_acl_queue := rest,
                         trace := s.trace ++ [callbackTask .MT_GETACL r response] }, true)
  | .MT_SETACL =>
      let response := P.Response_Parse .MT_SETACL message.data
      match s.set_acl_queue with
      | [] => none
      | r :: rest =>
          some ({ s with set_acl_queue := rest,
                         trace := s.trace ++ [callbackTask .MT_SETACL r response] }, true)
  | .MT_GETCHILDREN =>
      let response := P.Response_Parse .MT_GETCHILDREN message.data
      match s.children_queue with
      | [] => none
      | r :: rest =>
          let wm :=
            match r.watcher with
            | some w =>
                if response.code = RC_OK then s.watch_manager.AddChildWatch r.path w
                else s.watch_manager
            | none => s.watch_manager
          some ({ s with watch_manager := wm, children_queue := rest,
                         trace := s.trace ++ [callbackTask .MT_GETCHILDREN r response] },
                true)
  | .MT_MASTER =>
      (Close { s with master := P.Master_Parse message.data }).map (fun s1 => (s1, false))
  | .MT_PING => some (s, true)
  | .MT_SET_WATCHES => none
  | .MT_CLOSE => none

/-- The method `SaberClient::HandleMessage(message)`: the switch, then the pop
of `outgoing_queue_` guarded by `assert(!outgoing_queue_.empty())`. -/
def HandleMessage (P : Proto) (s : SaberClient) (message : SaberMessage) :
    Option (SaberClient × Bool) :=
  match HandleMessage_switch P s message with
  | none => none
  | some (s1, res) =>
      if message.type ≠ .MT_NOTIFICATION ∧ message.type ≠ .MT_MASTER ∧
          message.type ≠ .MT_PING ∧ message.type ≠ .MT_CONNECT then
        match s1.outgoing_queue with
        | [] => none
        | _ :: rest => some ({ s1 with outgoing_queue := rest }, res)
      else some (s1, res)

end SaberClient

/-! ## The client, older revision (`src/src/saber/client/saber_client.cc`) -/

namespace legacy

/-- The pending request of the older revision,
`Request<Callback>{client_path, server_path, context, watcher, callback}`. -/
structure Request where
  client_path : String
  server_path : String
  context : Nat
  watcher : Option Watcher
  callback : Nat
  deriving DecidableEq, Repr

/-- The fields of `Options` the older constructor reads. -/
structure Options where
  server_manager : ServerManager
  auto_watch_reset : Bool
  deriving DecidableEq, Repr

/-- The state of the older `SaberClient`.  `messager` is the connection held by
`messager_` (set by `SetTcpConnection`); `master_ip_` and `master_port_` are
members that this revision reads but never assigns. -/
structure SaberClient where
  has_started : Bool
  server_manager : ServerManager
  messager : Option ConnId
  watch_manager : ClientWatchManager
  master_ip : String
  master_port : Nat
  client : Option SockAddr
  create_queue : List Request
  delete_queue : List Request
  exists_queue : List Request
  get_data_queue : List Request
  set_data_queue : List Request
  get_acl_queue : List Request
  set_acl_queue : List Request
  children_queue : List Request
  outgoing_queue : List SaberMessage
  trace : List Effect
  deriving DecidableEq, Repr

namespace SaberClient

/-- The constructor `SaberClient::SaberClient(options, send_loop, event_loop)`. -/
def new (options : Options) : SaberClient :=
  { has_started := false
    server_manager := options.server_manager
    messager := none
    watch_manager := ClientWatchManager.new options.auto_watch_reset
    master_ip := ""
    master_port := 0
    client := none
    create_queue := []
    delete_queue := []
    exists_queue := []
    get_data_queue := []
    set_data_queue := []
    get_acl_queue := []
    set_acl_queue := []
    children_queue := []
    outgoing_queue := []
    trace := [] }

/-- The queue of pending requests of one operation. -/
def queue (s : SaberClient) : Op → List Request
  | .Create => s.create_queue
  | .Delete => s.delete_queue
  | .Exists => s.exists_queue
  | .GetData => s.get_data_queue
  | .SetData => s.set_data_queue
  | .GetACL => s.get_acl_queue
  | .SetACL => s.set_acl_queue
  | .GetChildren => s.children_queue

/-- The method `SaberClient::Connect(addr)`. -/
def Connect (s : SaberClient) (addr : SockAddr) : SaberClient :=
  { s with client := some addr, trace := s.trace ++ [Effect.connect addr] }

/-- The method `SaberClient::Close()`: `assert(client_); client_->Close()`. -/
def Close (s : SaberClient) : Option SaberClient :=
  match s.client with
  | none => none
  | some _ => some { s with trace := s.trace ++ [Effect.close] }

/-- The method `SaberClient::Start()`. -/
def Start (s : SaberClient) : SaberClient :=
  if s.has_started = false then
    let next := s.server_manager.GetNext
    Connect { s with has_started := true, server_manager := next.2 } next.1
  else s

/-- The method `SaberClient::Stop()`. -/
def Stop (s : SaberClient) : Option SaberClient :=
  if s.has_started = true then
    Close { s with has_started := false }
  else some s

/-- The method `SaberClient::TrySendInLoop(message)`. -/
def TrySendInLoop (s : SaberClient) (message : SaberMessage) : SaberClient :=
  { s with trace := s.trace ++ [Effect.send s.messager message],
           outgoing_queue := s.outgoing_queue ++ [message] }

/-- The method `SaberClient::Create(request, context, cb)`. -/
def Create (s : SaberClient) (request : ApiRequest) (context : Nat) (cb : Nat) :
    SaberClient :=
  let message : SaberMessage := ⟨.MT_CREATE, request.serialized, ""⟩
  let r : Request := ⟨request.path, request.path, context, none, cb⟩
  TrySendInLoop { s with create_queue := s.create_queue ++ [r] } message

/-- The method `SaberClient::Delete(request, context, cb)`. -/
def Delete (s : SaberClient) (request : ApiRequest) (context : Nat) (cb : Nat) :
    SaberClient :=
  let message : SaberMessage := ⟨.MT_DELETE, request.serialized, ""⟩
  let r : Request := ⟨request.path, request.path, context, none, cb⟩
  TrySendInLoop { s with delete_queue := s.delete_queue ++ [r] } message

/-- The method `SaberClient::Exists(request, watcher, context, cb)`; the request
is built with `nullptr` in place of `watcher`. -/
def Exists (s : SaberClient) (request : ApiRequest) (_watcher : Option Watcher)
    (context : Nat) (cb : Nat) : SaberClient :=
  let message : SaberMessage := ⟨.MT_EXISTS, request.serialized, ""⟩
  let r : Request := ⟨request.path, request.path, context, none, cb⟩
  TrySendInLoop { s with exists_queue := s.exists_queue ++ [r] } message

/-- The method `SaberClient::GetData(request, watcher, context, cb)`; the
request is built with `nullptr` in place of `watcher`. -/
def GetData (s : SaberClient) (request : ApiRequest) (_watcher : Option Watcher)
    (context : Nat) (cb : Nat) : SaberClient :=
  let message : SaberMessage := ⟨.MT_GETDATA, request.serialized, ""⟩
  let r : Request := ⟨request.path, request.path, context, none, cb⟩
  TrySendInLoop { s with get_data_queue := s.get_data_queue ++ [r] } message

/-- The method `SaberClient::SetData(request, context, cb)`. -/
def SetData (s : SaberClient) (request : ApiRequest) (context : Nat) (cb : Nat) :
    SaberClient :=
  let message : SaberMessage := ⟨.MT_SETDATA, request.serialized, ""⟩
  let r : Request := ⟨request.path, request.path, context, none, cb⟩
  TrySendInLoop { s with set_data_queue := s.set_data_queue ++ [r] } message

/-- The method `SaberClient::GetACL(request, context, cb)`. -/
def GetACL (s : SaberClient) (request : ApiRequest) (context : Nat) (cb : Nat) :
    SaberClient :=
  let message : SaberMessage := ⟨.MT_GETACL, request.serialized, ""⟩
  let r : Request := ⟨request.path, request.path, context, none, cb⟩
  TrySendInLoop { s with get_acl_queue := s.get_acl_queue ++ [r] } message

/-- The method `SaberClient::SetACL(request, context, cb)`. -/
def SetACL (s : SaberClient) (request : ApiRequest) (context : Nat) (cb : Nat) :
    SaberClient :=
  let message : SaberMessage := ⟨.MT_SETACL, request.serialized, ""⟩
  let r : Request := ⟨request.path, request.path, context, none, cb⟩
  TrySendInLoop { s with set_acl_queue := s.set_acl_queue ++ [r] } message

/-- The method `SaberClient::GetChildren(request, watcher, context, cb)`. -/
def GetChildren (s : SaberClient) (request : ApiRequest) (watcher : Option Watcher)
    (context : Nat) (cb : Nat) : SaberClient :=
  let message : SaberMessage := ⟨.MT_GETCHILDREN, request.serialized, ""⟩
  let r : Request := ⟨request.path, request.path, context, watcher, cb⟩
  TrySendInLoop { s with children_queue := s.children_queue ++ [r] } message

/-- The method `SaberClient::OnConnection(p)`. -/
def OnConnection (s : SaberClient) (p : ConnId) : SaberClient :=
  { s with messager := some p,
           server_manager := s.server_manager.OnConnection,
           trace := s.trace ++ s.outgoing_queue.map (fun i => Effect.send (some p) i) }

/-- The method `SaberClient::OnFailue()`. -/
def OnFailue (s : SaberClient) : SaberClient :=
  if s.has_started = true then
    let next := s.server_manager.GetNext
    Connect { s with server_manager := next.2 } next.1
  else s

/-- The method `SaberClient::OnClose(p)`. -/
def OnClose (s : SaberClient) (_p : ConnId) : SaberClient :=
  if s.has_started = true then
    if s.master_ip ≠ "" then
      let s1 := Connect s ⟨s.master_ip, s.master_port⟩
      { s1 with master_ip := "" }
    else
      let next := s.server_manager.GetNext
      Connect { s with server_manager := next.2 } next.1
  else s

/-- The task posted to the event loop for a response. -/
def callbackTask (type : MessageType) (request : Request) (response : Response) :
    Effect :=
  Effect.callback type request.callback request.client_path request.context response

/-- The method `SaberClient::OnMessage(message)` of the older revision: the pop
of `outgoing_queue_` comes first and is unconditional. -/
def OnMessage (P : Proto) (s0 : SaberClient) (message : SaberMessage) :
    Option SaberClient :=
  match s0.outgoing_queue with
  | [] => none
  | _ :: outgoing =>
  let s := { s0 with outgoing_queue := outgoing }
  match message.type with
  | .MT_NOTIFICATION =>
      let event := P.WatchedEvent_Parse message.data
      let result := s.watch_manager.Trigger event
      some { s with watch_manager := result.2,
                    trace := s.trace ++ [Effect.process result.1 event] }
  | .MT_CREATE =>
      let response := P.Response_Parse .MT_CREATE message.data
      match s.create_queue with
      | [] => none
      | r :: rest =>
          some { s with create_queue := rest,
                        trace := s.trace ++ [callbackTask .MT_CREATE r response] }
  | .MT_DELETE =>
      let response := P.Response_Parse .MT_DELETE message.data
      match s.delete_queue with
      | [] => none
      | r :: rest =>
          some { s with delete_queue := rest,
                        trace := s.trace ++ [callbackTask .MT_DELETE r response] }
  | .MT_EXISTS =>
      let response := P.Response_Parse .MT_EXISTS message.data
      match s.exists_queue with
      | [] => none
      | r :: rest =>
          let wm :=
            match r.watcher with
            | some w =>
                if response.code = RC_OK then s.watch_manager.AddDataWatch r.client_path w
                else s.watch_manager.AddExistWatch r.client_path w
            | none => s.watch_manager
          some { s with watch_manager := wm, exists_queue := rest,
                        trace := s.trace ++ [callbackTask .MT_EXISTS r response] }
  | .MT_GETDATA =>
      let response := P.Response_Parse .MT_GETDATA message.data
      match s.get_data_queue with
      | [] => none
      | r :: rest =>
          let wm :=
            match r.watcher with
            | some w =>
                if response.code = RC_OK then s.watch_manager.AddDataWatch r.client_path w
                else s.watch_manager
            | none => s.watch_manager
          some { s with watch_manager := wm, get_data_queue := rest,
                        trace := s.trace ++ [callbackTask .MT_GETDATA r response] }
  | .MT_SETDATA =>
      let response := P.Response_Parse .MT_SETDATA message.data
      match s.set_data_queue with
      | [] => none
      | r :: rest =>
          some { s with set_data_queue := rest,
                        trace := s.trace ++ [callbackTask .MT_SETDATA r response] }
  | .MT_GETACL =>
      let response := P.Response_Parse .MT_GETACL message.data
      match s.get_acl_queue with
      | [] => none
      | r :: rest =>
          some { s with get_acl_queue := rest,
                        trace := s.trace ++ [callbackTask .MT_GETACL r response] }
  | .MT_SETACL =>
      let response := P.Response_Parse .MT_SETACL message.data
      match s.set_acl_queue with
      | [] => none
      | r :: rest =>
          some { s with set_acl_queue := rest,
                        trace := s.trace ++ [callbackTask .MT_SETACL r response] }
  | .MT_GETCHILDREN =>
      let response := P.Response_Parse .MT_GETCHILDREN message.data
      match s.children_queue with
      | [] => none
      | r :: rest =>
          let wm :=
            match r.watcher with
            | some w =>
                if response.code = RC_OK then s.watch_manager.AddChildWatch r.client_path w
                else s.watch_manager
            | none => s.watch_manager
          some { s with watch_manager := wm, children_queue := rest,
                        trace := s.trace ++ [callbackTask .MT_GETCHILDREN r response] }
  | _ => some s

end SaberClient

end legacy

/-! ## Sequences of calls and events -/

/-- The arguments of one API call: the typed request, the watcher (used by
`Exists`, `GetData` and `GetChildren` only), the context and the callback. -/
structure Submission where
  request : ApiRequest
  watcher : Option Watcher
  context : Nat
  cb : Nat
  deriving DecidableEq, Repr

/-- The callbacks among the effects of a trace. -/
def callbacks (trace : List Effect) : List Effect :=
  trace.filter (fun e => match e with
    | .callback _ _ _ _ _ => true
    | _ => false)

/-- The messages a trace sends on connection `p`, in order. -/
def sentOn (p : ConnId) (trace : List Effect) : List SaberMessage :=
  trace.filterMap (fun e => match e with
    | .send (some q) m => if q = p then some m else none
    | _ => none)

/-- The connection attempts of a trace, in order. -/
def connects (trace : List Effect) : List SockAddr :=
  trace.filterMap (fun e => match e with
    | .connect a => some a
    | _ => none)

/-- The message types of the eight operations. -/
def isOpType : MessageType → Bool
  | .MT_CREATE | .MT_DELETE | .MT_EXISTS | .MT_GETDATA | .MT_SETDATA
  | .MT_GETACL | .MT_SETACL | .MT_GETCHILDREN => true
  | _ => false

/-- An event the client reacts to: an API call, a callback of the TCP client,
or a message handed over by the `Messager`. -/
inductive Event where
  | Start
  | Stop
  | call (T : Op) (c : Submission)
  | OnConnection (p : ConnId)
  | OnFailue
  | OnClose (p : ConnId)
  | message (m : SaberMessage)
  deriving DecidableEq, Repr

namespace SaberClient

/-- The API call of operation `T` with the arguments `c`. -/
def call (s : SaberClient) (T : Op) (c : Submission) : SaberClient :=
  match T with
  | .Create => s.Create c.request c.context c.cb
  | .Delete => s.Delete c.request c.context c.cb
  | .Exists => s.Exists c.request c.watcher c.context c.cb
  | .GetData => s.GetData c.request c.watcher c.context c.cb
  | .SetData => s.SetData c.request c.context c.cb
  | .GetACL => s.GetACL c.request c.context c.cb
  | .SetACL => s.SetACL c.request c.context c.cb
  | .GetChildren => s.GetChildren c.request c.watcher c.context c.cb

/-- The API calls of operation `T` with the arguments `cs`, in order. -/
def callAll (s : SaberClient) (T : Op) : List Submission → SaberClient
  | [] => s
  | c :: cs => callAll (s.call T c) T cs

/-- API calls of arbitrary operations, in order. -/
def callMany (s : SaberClient) : List (Op × Submission) → SaberClient
  | [] => s
  | c :: cs => callMany (s.call c.1 c.2) cs

/-- The received messages `ms` handled one after the other. -/
def handleAll (P : Proto) (s : SaberClient) : List SaberMessage → Option SaberClient
  | [] => some s
  | m :: ms =>
      match HandleMessage P s m with
      | none => none
      | some (s1, _) => handleAll P s1 ms

/-- One event. -/
def step (P : Proto) (s : SaberClient) : Event → Option SaberClient
  | .Start => some s.Start
  | .Stop => s.Stop
  | .call T c => some (s.call T c)
  | .OnConnection p => some (OnConnection P s p)
  | .OnFailue => some s.OnFailue
  | .OnClose p => some (s.OnClose p)
  | .message m => (HandleMessage P s m).map Prod.fst

/-- A sequence of events, from left to right. -/
def run (P : Proto) (s : SaberClient) : List Event → Option SaberClient
  | [] => some s
  | e :: es =>
      match step P s e with
      | none => none
      | some s1 => run P s1 es

end SaberClient

/-- The pending request the API call of operation `T` queues for `c`: only
`Exists`, `GetData` and `GetChildren` keep the watcher. -/
def pendingOf (T : Op) (c : Submission) : Request :=
  match T with
  | .Exists | .GetData | .GetChildren => ⟨c.request.path, c.context, c.watcher, c.cb⟩
  | _ => ⟨c.request.path, c.context, none, c.cb⟩

/-- The request message the API call of operation `T` builds for `c`. -/
def messageOf (root : String) (T : Op) (c : Submission) : SaberMessage :=
  ⟨T.type, c.request.serialized, root⟩

/-- The session ids of the CONNECT responses among a sequence of events. -/
def connectResponses (P : Proto) : List Event → List Nat
  | [] => []
  | .message m :: es =>
      if m.type = .MT_CONNECT then
        (P.ConnectResponse_Parse m.data).session_id :: connectResponses P es
      else connectResponses P es
  | _ :: es => connectResponses P es

namespace legacy

namespace SaberClient

/-- The API call of operation `T` with the arguments `c`. -/
def call (s : SaberClient) (T : Op) (c : Submission) : SaberClient :=
  match T with
  | .Create => s.Create c.request c.context c.cb
  | .Delete => s.Delete c.request c.context c.cb
  | .Exists => s.Exists c.request c.watcher c.context c.cb
  | .GetData => s.GetData c.request c.watcher c.context c.cb
  | .SetData => s.SetData c.request c.context c.cb
  | .GetACL => s.GetACL c.request c.context c.cb
  | .SetACL => s.SetACL c.request c.context c.cb
  | .GetChildren => s.GetChildren c.request c.watcher c.context c.cb

/-- The API calls of operation `T` with the arguments `cs`, in order. -/
def callAll (s : SaberClient) (T : Op) : List Submission → SaberClient
  | [] => s
  | c :: cs => callAll (s.call T c) T cs

/-- The received messages `ms` handled one after the other. -/
def handleAll (P : Proto) (s : SaberClient) : List SaberMessage → Option SaberClient
  | [] => some s
  | m :: ms =>
      match OnMessage P s m with
      | none => none
      | some s1 => handleAll P s1 ms

end SaberClient

/-- The pending request the older API call of operation `T` queues for `c`:
only `GetChildren` keeps the watcher. -/
def pendingOf (T : Op) (c : Submission) : Request :=
  match T with
  | .GetChildren => ⟨c.request.path, c.request.path, c.context, c.watcher, c.cb⟩
  | _ => ⟨c.request.path, c.request.path, c.context, none, c.cb⟩

end legacy

/-! ## Concrete values -/

/-- A concrete codec: a response's code is the length of its data, so the empty
string parses to `RC_OK`. -/
def demoProto : Proto where
  ConnectRequest_Serialize n := String.mk (List.replicate n 's')
  ConnectResponse_Parse d := ⟨d.length, 10000⟩
  Response_Parse _ d := ⟨d.length, d⟩
  Master_Parse d := ⟨d, 8889⟩
  WatchedEvent_Parse d := ⟨.ET_NODE_DATA_CHANGED, .SS_CONNECTED, d⟩

/-- Options naming the two servers of `saber_client_main.cc`. -/
def demoOptions : ClientOptions :=
  { root := "", server_manager := ⟨[⟨"127.0.0.1", 8888⟩, ⟨"127.0.0.1", 8889⟩], 0⟩,
    auto_watch_reset := true }

/-- A freshly constructed client with default watcher 7. -/
def demoClient : SaberClient := SaberClient.new demoOptions (some 7)

/-- A freshly constructed client of the older revision. -/
def demoLegacy : legacy.SaberClient :=
  legacy.SaberClient.new ⟨demoOptions.server_manager, true⟩

/-- The arguments of a call on path `/a` with context 1 and callback 11. -/
def demoA : Submission := ⟨⟨"/a", "req-a"⟩, none, 1, 11⟩

/-- The arguments of a call on path `/k` with watcher 5, context 2 and callback 12. -/
def demoK : Submission := ⟨⟨"/k", "req-k"⟩, some 5, 2, 12⟩

end saber

namespace saber

/-- A started and connected client with one pending `Create` on `/a`. -/
def demoPending : SaberClient :=
  (SaberClient.OnConnection demoProto demoClient.Start 1).call .Create demoA

/-- A session in which `GetData` on `/k` registers watcher 5 before the
connection is lost. -/
def demoWatching : Option SaberClient :=
  SaberClient.run demoProto demoClient
    [.Start, .OnConnection 1, .call .GetData demoK, .message ⟨.MT_GETDATA, "", ""⟩,
     .OnClose 1]

end saber

namespace saber

/-! ## Ghost bookkeeping over event sequences -/

/-- The API calls among a sequence of events, in submission order. -/
def submitted : List Event → List (Op × Submission)
  | [] => []
  | .call T c :: es => (T, c) :: submitted es
  | .Start :: es => submitted es
  | .Stop :: es => submitted es
  | .OnConnection _ :: es => submitted es
  | .OnFailue :: es => submitted es
  | .OnClose _ :: es => submitted es
  | .message _ :: es => submitted es

/-- The operation responses among a sequence of events, in arrival order. -/
def responses : List Event → List SaberMessage
  | [] => []
  | .message m :: es => if isOpType m.type = true then m :: responses es else responses es
  | .call _ _ :: es => responses es
  | .Start :: es => responses es
  | .Stop :: es => responses es
  | .OnConnection _ :: es => responses es
  | .OnFailue :: es => responses es
  | .OnClose _ :: es => responses es

/-- The interleavings in which responses arrive in send order.  `started` tells
whether `Start` has been called (a MASTER message needs the `TcpClient`),
`pending` lists the operations of the requests not yet answered, oldest first:
an operation response must carry the type of the oldest one.  Messages of type
SET_WATCHES and CLOSE are never received. -/
def admissible : Bool → List Op → List Event → Bool
  | _, _, [] => true
  | _, pending, .Start :: es => admissible true pending es
  | started, pending, .Stop :: es => admissible started pending es
  | started, pending, .call T _ :: es => admissible started (pending ++ [T]) es
  | started, pending, .OnConnection _ :: es => admissible started pending es
  | started, pending, .OnFailue :: es => admissible started pending es
  | started, pending, .OnClose _ :: es => admissible started pending es
  | started, pending, .message m :: es =>
      if isOpType m.type = true then
        match pending with
        | [] => false
        | T :: rest => decide (T.type = m.type) && admissible started rest es
      else if m.type = .MT_MASTER then started && admissible started pending es
      else if m.type = .MT_SET_WATCHES ∨ m.type = .MT_CLOSE then false
      else admissible started pending es

/-- The request messages of the pending calls `pend`, in submission order. -/
def pendingMessages (root : String) (pend : List (Op × Submission)) : List SaberMessage :=
  pend.map (fun x => messageOf root x.1 x.2)

/-- The queued requests of operation `T` among the pending calls `pend`. -/
def pendingRequests (T : Op) (pend : List (Op × Submission)) : List Request :=
  (pend.filter (fun x => decide (x.1 = T))).map (fun x => pendingOf T x.2)

/-- The callback tasks of the calls `subs` answered, in order, by `resps`. -/
def dispatchedCallbacks (P : Proto) (subs : List (Op × Submission))
    (resps : List SaberMessage) : List Effect :=
  List.zipWith (fun x m => Effect.callback x.1.type x.2.cb x.2.request.path x.2.context
    (P.Response_Parse x.1.type m.data)) subs resps

/-- The client mirrors the pending calls `pend`: `outgoing_queue` holds their
messages in order and the queue of each operation holds its requests among
them, in order. -/
def Mirror (s : SaberClient) (pend : List (Op × Submission)) : Prop :=
  s.outgoing_queue = pendingMessages s.root pend ∧ ∀ T, s.queue T = pendingRequests T pend

/-- A client with a pending `Create` and a recorded master hint. -/
def demoHinted : SaberClient :=
  { demoPending with master := ⟨"10.0.0.2", 8889⟩ }

/-- The events that leave the master hint alone: anything but a connect failure
and a MASTER message. -/
def keepsHint : Event → Bool
  | .OnFailue => false
  | .message m => decide (m.type ≠ .MT_MASTER)
  | _ => true

/-- The events other than a call of `Start`. -/
def notStart : Event → Bool
  | .Start => false
  | _ => true

/-! ## More concrete values -/

/-- A session redirected to the master `10.0.0.2:8889` and connected to it. -/
def demoRedirected : Option SaberClient :=
  SaberClient.run demoProto demoClient
    [.Start, .OnConnection 1, .message ⟨.MT_MASTER, "10.0.0.2", ""⟩, .OnClose 1,
     .OnConnection 2]

/-- A started and connected client with one pending `Exists` on `/k` carrying
watcher 5. -/
def demoExists : SaberClient :=
  (SaberClient.OnConnection demoProto demoClient.Start 1).call .Exists demoK

/-- The newer revision after `GetData` and `Exists` on `/k`, both with watcher 5,
were answered with `RC_OK`. -/
def demoNewerWatching : Option SaberClient :=
  SaberClient.handleAll demoProto
    (((SaberClient.OnConnection demoProto demoClient.Start 1).call .GetData demoK).call
      .Exists demoK)
    [⟨.MT_GETDATA, "", ""⟩, ⟨.MT_EXISTS, "", ""⟩]

/-- A started and connected client with a pending `Create` on `/a` followed by a
pending `GetData` on `/k`. -/
def demoTwoPending : SaberClient :=
  ((SaberClient.OnConnection demoProto demoClient.Start 1).call .Create demoA).call
    .GetData demoK

/-- The older revision after `GetData` and `Exists` on `/k`, both with watcher 5,
were answered with `RC_OK`. -/
def demoLegacyWatching : Option legacy.SaberClient :=
  legacy.SaberClient.handleAll demoProto
    ((((demoLegacy.Start.OnConnection 1).call .GetData demoK).call .Exists demoK))
    [⟨.MT_GETDATA, "", ""⟩, ⟨.MT_EXISTS, "", ""⟩]

end saber

/-! ## Lemmas on the newer revision -/

namespace saber

open SaberClient

theorem call_queue_self (s : SaberClient) (T : Op) (c : Submission) :
    (s.call T c).queue T = s.queue T ++ [pendingOf T c] := by
  cases T <;> rfl

theorem call_queue_other (s : SaberClient) (T U : Op) (c : Submission) (h : U ≠ T) :
    (s.call T c).queue U = s.queue U := by
  cases T <;> cases U <;> first | rfl | exact absurd rfl h

theorem call_outgoing (s : SaberClient) (T : Op) (c : Submission) :
    (s.call T c).outgoing_queue = s.outgoing_queue ++ [messageOf s.root T c] := by
  cases T <;> rfl

theorem call_root (s : SaberClient) (T : Op) (c : Submission) :
    (s.call T c).root = s.root := by
  cases T <;> rfl

theorem call_trace (s : SaberClient) (T : Op) (c : Submission) :
    (s.call T c).trace = s.trace ++ [Effect.send s.conn_wp (messageOf s.root T c)] := by
  cases T <;> rfl

theorem call_conn_wp (s : SaberClient) (T : Op) (c : Submission) :
    (s.call T c).conn_wp = s.conn_wp := by
  cases T <;> rfl

theorem callAll_queue_self (T : Op) (cs : List Submission) :
    ∀ s : SaberClient, (s.callAll T cs).queue T = s.queue T ++ cs.map (pendingOf T) := by
  induction cs with
  | nil => intro s; simp [callAll]
  | cons c cs ih => intro s; simp [callAll, ih, call_queue_self]

theorem callAll_queue_other (T U : Op) (h : U ≠ T) (cs : List Submission) :
    ∀ s : SaberClient, (s.callAll T cs).queue U = s.queue U := by
  induction cs with
  | nil => intro s; rfl
  | cons c cs ih => intro s; simp [callAll, ih, call_queue_other _ _ _ _ h]

theorem callAll_root (T : Op) (cs : List Submission) :
    ∀ s : SaberClient, (s.callAll T cs).root = s.root := by
  induction cs with
  | nil => intro s; rfl
  | cons c cs ih => intro s; simp [callAll, ih, call_root]

theorem callAll_outgoing (T : Op) (cs : List Submission) :
    ∀ s : SaberClient, (s.callAll T cs).outgoing_queue
      = s.outgoing_queue ++ cs.map (messageOf s.root T) := by
  induction cs with
  | nil => intro s; simp [callAll]
  | cons c cs ih => intro s; simp [callAll, ih, call_outgoing, call_root]

theorem HandleMessage_op (P : Proto) (T : Op) (s : SaberClient) (m : SaberMessage)
    (r : Request) (rest : List Request) (o : SaberMessage) (os : List SaberMessage)
    (hm : m.type = T.type) (hq : s.queue T = r :: rest) (ho : s.outgoing_queue = o :: os) :
    ∃ s1, HandleMessage P s m = some (s1, true) ∧
      s1.trace = s.trace ++ [callbackTask T.type r (P.Response_Parse T.type m.data)] ∧
      s1.queue T = rest ∧ s1.outgoing_queue = os ∧
      (∀ U, U ≠ T → s1.queue U = s.queue U) := by
  cases T <;> simp only [queue, Op.type] at hq hm <;>
    simp [HandleMessage, HandleMessage_switch, hm, hq, ho, queue, Op.type] <;>
    intro U hU <;> cases U <;> simp_all [queue]

theorem handleAll_op (P : Proto) (T : Op) (ms : List SaberMessage) :
    ∀ (s : SaberClient) (q : List Request), (∀ m ∈ ms, m.type = T.type) →
      s.queue T = q → ms.length ≤ q.length → ms.length ≤ s.outgoing_queue.length →
      ∃ s1, handleAll P s ms = some s1 ∧
        s1.trace = s.trace ++ List.zipWith
          (fun r m => callbackTask T.type r (P.Response_Parse T.type m.data)) q ms ∧
        s1.queue T = q.drop ms.length ∧
        s1.outgoing_queue = s.outgoing_queue.drop ms.length ∧
        (∀ U, U ≠ T → s1.queue U = s.queue U) := by
  induction ms with
  | nil => intro s q _ hq _ _; exact ⟨s, rfl, by simp, by simpa using hq, by simp, fun _ _ => rfl⟩
  | cons m ms ih =>
    intro s q hty hq hlen hout
    cases q with
    | nil => simp at hlen
    | cons r rest =>
      cases hO : s.outgoing_queue with
      | nil => simp [hO] at hout
      | cons o os =>
        obtain ⟨s1, h1, ht1, hq1, ho1, hother1⟩ :=
          HandleMessage_op P T s m r rest o os (hty m (by simp)) hq hO
        have hlen1 : ms.length ≤ rest.length := by simpa using hlen
        have hout1 : ms.length ≤ s1.outgoing_queue.length := by
          rw [ho1]; simpa [hO] using hout
        obtain ⟨s2, h2, ht2, hq2, ho2, hother2⟩ :=
          ih s1 rest (fun x hx => hty x (by simp [hx])) hq1 hlen1 hout1
        refine ⟨s2, ?_, ?_, ?_, ?_, ?_⟩
        · simp [handleAll, h1, h2]
        · simp [ht2, ht1]
        · simpa using hq2
        · simp [ho2, ho1]
        · intro U hU; rw [hother2 U hU, hother1 U hU]

theorem callbackTask_pendingOf (T : Op) (c : Submission) (resp : Response) :
    callbackTask T.type (pendingOf T c) resp
      = Effect.callback T.type c.cb c.request.path c.context resp := by
  cases T <;> rfl

end saber

/-! ## Lemmas on the older revision -/

namespace saber.legacy

open SaberClient

theorem legacy_call_queue_self (s : SaberClient) (T : Op) (c : Submission) :
    (s.call T c).queue T = s.queue T ++ [pendingOf T c] := by
  cases T <;> rfl

theorem legacy_call_queue_other (s : SaberClient) (T U : Op) (c : Submission) (h : U ≠ T) :
    (s.call T c).queue U = s.queue U := by
  cases T <;> cases U <;> first | rfl | exact absurd rfl h

theorem legacy_call_outgoing (s : SaberClient) (T : Op) (c : Submission) :
    (s.call T c).outgoing_queue = s.outgoing_queue ++ [messageOf "" T c] := by
  cases T <;> rfl

theorem legacy_callAll_queue_self (T : Op) (cs : List Submission) :
    ∀ s : SaberClient, (s.callAll T cs).queue T = s.queue T ++ cs.map (pendingOf T) := by
  induction cs with
  | nil => intro s; simp [callAll]
  | cons c cs ih => intro s; simp [callAll, ih, legacy_call_queue_self]

theorem legacy_callAll_queue_other (T U : Op) (h : U ≠ T) (cs : List Submission) :
    ∀ s : SaberClient, (s.callAll T cs).queue U = s.queue U := by
  induction cs with
  | nil => intro s; rfl
  | cons c cs ih => intro s; simp [callAll, ih, legacy_call_queue_other _ _ _ _ h]

theorem legacy_callAll_outgoing (T : Op) (cs : List Submission) :
    ∀ s : SaberClient, (s.callAll T cs).outgoing_queue
      = s.outgoing_queue ++ cs.map (messageOf "" T) := by
  induction cs with
  | nil => intro s; simp [callAll]
  | cons c cs ih => intro s; simp [callAll, ih, legacy_call_outgoing]

theorem OnMessage_op (P : Proto) (T : Op) (s : SaberClient) (m : SaberMessage)
    (r : Request) (rest : List Request) (o : SaberMessage) (os : List SaberMessage)
    (hm : m.type = T.type) (hq : s.queue T = r :: rest) (ho : s.outgoing_queue = o :: os) :
    ∃ s1, OnMessage P s m = some s1 ∧
      s1.trace = s.trace ++ [callbackTask T.type r (P.Response_Parse T.type m.data)] ∧
      s1.queue T = rest ∧ s1.outgoing_queue = os ∧
      (∀ U, U ≠ T → s1.queue U = s.queue U) := by
  cases T <;> simp only [queue, Op.type] at hq hm <;>
    simp [OnMessage, hm, hq, ho, queue, Op.type] <;>
    intro U hU <;> cases U <;> simp_all [queue]

theorem legacy_handleAll_op (P : Proto) (T : Op) (ms : List SaberMessage) :
    ∀ (s : SaberClient) (q : List Request), (∀ m ∈ ms, m.type = T.type) →
      s.queue T = q → ms.length ≤ q.length → ms.length ≤ s.outgoing_queue.length →
      ∃ s1, handleAll P s ms = some s1 ∧
        s1.trace = s.trace ++ List.zipWith
          (fun r m => callbackTask T.type r (P.Response_Parse T.type m.data)) q ms ∧
        s1.queue T = q.drop ms.length ∧
        s1.outgoing_queue = s.outgoing_queue.drop ms.length ∧
        (∀ U, U ≠ T → s1.queue U = s.queue U) := by
  induction ms with
  | nil => intro s q _ hq _ _; exact ⟨s, rfl, by simp, by simpa using hq, by simp, fun _ _ => rfl⟩
  | cons m ms ih =>
    intro s q hty hq hlen hout
    cases q with
    | nil => simp at hlen
    | cons r rest =>
      cases hO : s.outgoing_queue with
      | nil => simp [hO] at hout
      | cons o os =>
        obtain ⟨s1, h1, ht1, hq1, ho1, hother1⟩ :=
          OnMessage_op P T s m r rest o os (hty m (by simp)) hq hO
        have hlen1 : ms.length ≤ rest.length := by simpa using hlen
        have hout1 : ms.length ≤ s1.outgoing_queue.length := by
          rw [ho1]; simpa [hO] using hout
        obtain ⟨s2, h2, ht2, hq2, ho2, hother2⟩ :=
          ih s1 rest (fun x hx => hty x (by simp [hx])) hq1 hlen1 hout1
        refine ⟨s2, ?_, ?_, ?_, ?_, ?_⟩
        · simp [handleAll, h1, h2]
        · simp [ht2, ht1]
        · simpa using hq2
        · simp [ho2, ho1]
        · intro U hU; rw [hother2 U hU, hother1 U hU]

theorem legacy_callbackTask_pendingOf (T : Op) (c : Submission) (resp : Response) :
    callbackTask T.type (pendingOf T c) resp
      = Effect.callback T.type c.cb c.request.path c.context resp := by
  cases T <;> rfl

end saber.legacy

/-! ## Per-operation FIFO dispatch -/

namespace saber

open SaberClient

/-- C1: per-operation FIFO dispatch, in both revisions.  After the requests
`cs` of operation `T` were submitted in order to a client whose queue of `T` was
empty, handling `k = ms.length ≤ cs.length` responses of type `T` succeeds, adds
to the trace exactly `k` callback tasks, the i-th being the callback of the
i-th request on that request's own path and context and on the parse of the
i-th response, leaves the requests `k+1 .. n` in the queue of `T` in order, and
leaves the queues of the other seven operations as they were. -/
theorem C1_fifo_dispatch (P : Proto) (T : Op) (cs : List Submission)
    (ms : List SaberMessage) (hk : ms.length ≤ cs.length)
    (hty : ∀ m ∈ ms, m.type = T.type) :
    (∀ s0 : SaberClient, s0.queue T = [] →
      (s0.callAll T cs).queue T = cs.map (pendingOf T) ∧
      ∃ s1, handleAll P (s0.callAll T cs) ms = some s1 ∧
        s1.trace = (s0.callAll T cs).trace ++ List.zipWith
          (fun c m => Effect.callback T.type c.cb c.request.path c.context
            (P.Response_Parse T.type m.data)) cs ms ∧
        s1.queue T = (cs.drop ms.length).map (pendingOf T) ∧
        (∀ U, U ≠ T → s1.queue U = s0.queue U)) ∧
    (∀ s0 : legacy.SaberClient, s0.queue T = [] →
      (s0.callAll T cs).queue T = cs.map (legacy.pendingOf T) ∧
      ∃ s1, legacy.SaberClient.handleAll P (s0.callAll T cs) ms = some s1 ∧
        s1.trace = (s0.callAll T cs).trace ++ List.zipWith
          (fun c m => Effect.callback T.type c.cb c.request.path c.context
            (P.Response_Parse T.type m.data)) cs ms ∧
        s1.queue T = (cs.drop ms.length).map (legacy.pendingOf T) ∧
        (∀ U, U ≠ T → s1.queue U = s0.queue U)) := by
  constructor
  · intro s0 h0
    have hq : (s0.callAll T cs).queue T = cs.map (pendingOf T) := by
      rw [callAll_queue_self, h0, List.nil_append]
    refine ⟨hq, ?_⟩
    obtain ⟨s1, h1, ht, hq1, _, hother⟩ :=
      handleAll_op P T ms (s0.callAll T cs) _ hty hq (by simpa using hk)
        (by rw [callAll_outgoing]; simp; omega)
    refine ⟨s1, h1, ?_, ?_, ?_⟩
    · rw [ht, List.zipWith_map_left]
      simp only [callbackTask_pendingOf]
    · rw [hq1, List.map_drop]
    · intro U hU; rw [hother U hU, callAll_queue_other T U hU]
  · intro s0 h0
    have hq : (s0.callAll T cs).queue T = cs.map (legacy.pendingOf T) := by
      rw [legacy.legacy_callAll_queue_self, h0, List.nil_append]
    refine ⟨hq, ?_⟩
    obtain ⟨s1, h1, ht, hq1, _, hother⟩ :=
      legacy.legacy_handleAll_op P T ms (s0.callAll T cs) _ hty hq (by simpa using hk)
        (by rw [legacy.legacy_callAll_outgoing]; simp; omega)
    refine ⟨s1, h1, ?_, ?_, ?_⟩
    · rw [ht, List.zipWith_map_left]
      simp only [legacy.legacy_callbackTask_pendingOf]
    · rw [hq1, List.map_drop]
    · intro U hU; rw [hother U hU, legacy.legacy_callAll_queue_other T U hU]

end saber

namespace saber

open SaberClient

/-- Witness of C1: two `GetData` requests, one response. -/
theorem C1_fifo_dispatch_witness :
    [(⟨.MT_GETDATA, "", ""⟩ : SaberMessage)].length ≤ [demoK, demoA].length ∧
    (∀ m ∈ [(⟨.MT_GETDATA, "", ""⟩ : SaberMessage)], m.type = Op.GetData.type) ∧
    ∃ s1, handleAll demoProto (demoClient.callAll .GetData [demoK, demoA])
        [⟨.MT_GETDATA, "", ""⟩] = some s1 ∧
      s1.trace = (demoClient.callAll .GetData [demoK, demoA]).trace ++
        [Effect.callback .MT_GETDATA 12 "/k" 2 ⟨0, ""⟩] ∧
      s1.queue .GetData = [⟨"/a", 1, none, 11⟩] ∧
      (∀ U, U ≠ Op.GetData → s1.queue U = demoClient.queue U) :=
  ⟨by decide, by simp [Op.type],
    ((C1_fifo_dispatch demoProto .GetData [demoK, demoA] [⟨.MT_GETDATA, "", ""⟩]
      (by decide) (by simp [Op.type])).1 demoClient rfl).2⟩

theorem call_session_id (s : SaberClient) (T : Op) (c : Submission) :
    (s.call T c).session_id = s.session_id := by
  cases T <;> rfl

theorem callMany_root (cs : List (Op × Submission)) :
    ∀ s : SaberClient, (s.callMany cs).root = s.root := by
  induction cs with
  | nil => intro s; rfl
  | cons c cs ih => intro s; simp [callMany, ih, call_root]

theorem callMany_session_id (cs : List (Op × Submission)) :
    ∀ s : SaberClient, (s.callMany cs).session_id = s.session_id := by
  induction cs with
  | nil => intro s; rfl
  | cons c cs ih => intro s; simp [callMany, ih, call_session_id]

theorem callMany_outgoing (cs : List (Op × Submission)) :
    ∀ s : SaberClient, (s.callMany cs).outgoing_queue
      = s.outgoing_queue ++ cs.map (fun c => messageOf s.root c.1 c.2) := by
  induction cs with
  | nil => intro s; simp [callMany]
  | cons c cs ih => intro s; simp [callMany, ih, call_outgoing, call_root]

/-- C2: replay on (re)connection.  `OnConnection` adds to the trace exactly the
sends, on the new connection `p`, of the CONNECT handshake followed by the
messages of `outgoing_queue` in order, and leaves `outgoing_queue` and the
eight per-operation queues as they were.  Requests submitted earlier through
the API, with or without a connection, are in `outgoing_queue` and hence are
among the messages replayed. -/
theorem C2_replay_on_connection (P : Proto) (s : SaberClient) (p : ConnId)
    (calls : List (Op × Submission)) :
    (OnConnection P s p).trace = s.trace ++
      Effect.send (some p) ⟨.MT_CONNECT, P.ConnectRequest_Serialize s.session_id, s.root⟩
        :: s.outgoing_queue.map (fun m => Effect.send (some p) m) ∧
    (OnConnection P s p).outgoing_queue = s.outgoing_queue ∧
    (∀ T, (OnConnection P s p).queue T = s.queue T) ∧
    (OnConnection P (s.callMany calls) p).trace = (s.callMany calls).trace ++
      Effect.send (some p) ⟨.MT_CONNECT, P.ConnectRequest_Serialize s.session_id, s.root⟩
        :: (s.outgoing_queue ++ calls.map (fun c => messageOf s.root c.1 c.2)).map
            (fun m => Effect.send (some p) m) := by
  refine ⟨?_, rfl, ?_, ?_⟩
  · simp [OnConnection, connectMessage]
  · intro T; cases T <;> rfl
  · simp [OnConnection, connectMessage, callMany_outgoing, callMany_root,
      callMany_session_id]

end saber

namespace saber

open SaberClient

theorem HandleMessage_op_nil (P : Proto) (T : Op) (s : SaberClient) (m : SaberMessage)
    (hm : m.type = T.type) (hq : s.queue T = []) : HandleMessage P s m = none := by
  cases T <;> simp only [queue, Op.type] at hq hm <;>
    simp [HandleMessage, HandleMessage_switch, hm, hq]

theorem HandleMessage_op_outgoing_nil (P : Proto) (T : Op) (s : SaberClient)
    (m : SaberMessage) (hm : m.type = T.type) (ho : s.outgoing_queue = []) :
    HandleMessage P s m = none := by
  cases hq : s.queue T with
  | nil => exact HandleMessage_op_nil P T s m hm hq
  | cons r rest =>
    cases T <;> simp only [queue, Op.type] at hq hm <;>
      simp [HandleMessage, HandleMessage_switch, hm, hq, ho]

theorem HandleMessage_op_some (P : Proto) (T : Op) (s : SaberClient) (m : SaberMessage)
    (x : SaberClient × Bool) (hm : m.type = T.type) (h : HandleMessage P s m = some x) :
    s.queue T ≠ [] ∧ s.outgoing_queue ≠ [] := by
  constructor
  · intro hq; rw [HandleMessage_op_nil P T s m hm hq] at h; cases h
  · intro ho; rw [HandleMessage_op_outgoing_nil P T s m hm ho] at h; cases h

theorem HandleMessage_op_rest (P : Proto) (T : Op) (s : SaberClient) (m : SaberMessage)
    (r : Request) (rest : List Request) (o : SaberMessage) (os : List SaberMessage)
    (hm : m.type = T.type) (hq : s.queue T = r :: rest) (ho : s.outgoing_queue = o :: os) :
    ∃ s1, HandleMessage P s m = some (s1, true) ∧
      s1.session_id = s.session_id ∧ s1.has_started = s.has_started ∧ s1.root = s.root ∧
      s1.master = s.master ∧ s1.client = s.client ∧ s1.conn_wp = s.conn_wp ∧
      s1.server_manager = s.server_manager ∧ s1.timeout = s.timeout := by
  cases T <;> simp only [queue, Op.type] at hq hm <;>
    simp [HandleMessage, HandleMessage_switch, hm, hq, ho]

theorem HandleMessage_op_frame (P : Proto) (T : Op) (s s1 : SaberClient)
    (m : SaberMessage) (res : Bool) (hm : m.type = T.type)
    (h : HandleMessage P s m = some (s1, res)) :
    res = true ∧
    s1.session_id = s.session_id ∧ s1.has_started = s.has_started ∧ s1.root = s.root ∧
      s1.master = s.master ∧ s1.client = s.client ∧ s1.conn_wp = s.conn_wp ∧
      s1.server_manager = s.server_manager ∧ s1.timeout = s.timeout := by
  obtain ⟨hq, ho⟩ := HandleMessage_op_some P T s m _ hm h
  obtain ⟨r, rest, hq⟩ := List.exists_cons_of_ne_nil hq
  obtain ⟨o, os, ho⟩ := List.exists_cons_of_ne_nil ho
  obtain ⟨s2, h2, hf⟩ := HandleMessage_op_rest P T s m r rest o os hm hq ho
  rw [h2] at h
  cases h
  exact ⟨rfl, hf⟩

/-- The four message types that are not answers to a request. -/
theorem HandleMessage_notification (P : Proto) (s : SaberClient) (m : SaberMessage)
    (hm : m.type = .MT_NOTIFICATION) :
    HandleMessage P s m = some (TriggerWatchers s (P.WatchedEvent_Parse m.data), true) := by
  simp [HandleMessage, HandleMessage_switch, hm]

theorem HandleMessage_ping (P : Proto) (s : SaberClient) (m : SaberMessage)
    (hm : m.type = .MT_PING) : HandleMessage P s m = some (s, true) := by
  simp [HandleMessage, HandleMessage_switch, hm]

theorem HandleMessage_connect (P : Proto) (s : SaberClient) (m : SaberMessage)
    (hm : m.type = .MT_CONNECT) :
    HandleMessage P s m = some (TriggerWatchers
      { s with session_id := (P.ConnectResponse_Parse m.data).session_id,
               timeout := (P.ConnectResponse_Parse m.data).timeout }
      ⟨.ET_NONE, .SS_CONNECTED, ""⟩, true) := by
  simp [HandleMessage, HandleMessage_switch, hm]

theorem HandleMessage_master (P : Proto) (s : SaberClient) (m : SaberMessage)
    (hm : m.type = .MT_MASTER) :
    HandleMessage P s m
      = (Close { s with master := P.Master_Parse m.data }).map (fun s1 => (s1, false)) := by
  simp only [HandleMessage, HandleMessage_switch, hm]
  cases Close { s with master := P.Master_Parse m.data } <;> simp

theorem HandleMessage_other (P : Proto) (s : SaberClient) (m : SaberMessage)
    (hm : m.type = .MT_SET_WATCHES ∨ m.type = .MT_CLOSE) : HandleMessage P s m = none := by
  rcases hm with hm | hm <;> simp [HandleMessage, HandleMessage_switch, hm]

theorem isOpType_iff (t : MessageType) : isOpType t = true ↔ ∃ T : Op, t = T.type := by
  constructor
  · intro h
    cases t <;> simp [isOpType] at h
    · exact ⟨.Create, rfl⟩
    · exact ⟨.Delete, rfl⟩
    · exact ⟨.Exists, rfl⟩
    · exact ⟨.GetData, rfl⟩
    · exact ⟨.SetData, rfl⟩
    · exact ⟨.GetACL, rfl⟩
    · exact ⟨.SetACL, rfl⟩
    · exact ⟨.GetChildren, rfl⟩
  · rintro ⟨T, rfl⟩; cases T <;> rfl

end saber

namespace saber

open SaberClient

/-- C4: the pop rule of `outgoing_queue`.  For a response of one of the eight
operation types, whenever `HandleMessage` returns it has removed exactly the
front element of `outgoing_queue`, and it does return when that queue and the
queue of the operation are non-empty.  For a message of type NOTIFICATION,
MASTER, PING or CONNECT, `outgoing_queue` and the eight per-operation queues
are unchanged, and `HandleMessage` returns (for MASTER, given the `client_`
that `Close` asserts). -/
theorem C4_outgoing_pop_rule (P : Proto) (s : SaberClient) (m : SaberMessage) :
    (∀ T : Op, m.type = T.type →
      (∀ s1 res, HandleMessage P s m = some (s1, res) →
        s.outgoing_queue ≠ [] ∧ s1.outgoing_queue = s.outgoing_queue.tail) ∧
      (s.queue T ≠ [] → s.outgoing_queue ≠ [] →
        ∃ s1, HandleMessage P s m = some (s1, true) ∧
          s1.outgoing_queue = s.outgoing_queue.tail)) ∧
    (m.type = .MT_NOTIFICATION ∨ m.type = .MT_MASTER ∨ m.type = .MT_PING ∨
        m.type = .MT_CONNECT →
      (∀ s1 res, HandleMessage P s m = some (s1, res) →
        s1.outgoing_queue = s.outgoing_queue ∧ ∀ T, s1.queue T = s.queue T) ∧
      (m.type ≠ .MT_MASTER ∨ s.client ≠ none → ∃ x, HandleMessage P s m = some x)) := by
  constructor
  · intro T hm
    have key : s.queue T ≠ [] → s.outgoing_queue ≠ [] →
        ∃ s1, HandleMessage P s m = some (s1, true) ∧
          s1.outgoing_queue = s.outgoing_queue.tail := by
      intro hq ho
      obtain ⟨r, rest, hq⟩ := List.exists_cons_of_ne_nil hq
      obtain ⟨o, os, ho⟩ := List.exists_cons_of_ne_nil ho
      obtain ⟨s1, h1, _, _, h2, _⟩ := HandleMessage_op P T s m r rest o os hm hq ho
      exact ⟨s1, h1, by rw [h2, ho]; rfl⟩
    refine ⟨?_, key⟩
    intro s1 res h
    obtain ⟨hq, ho⟩ := HandleMessage_op_some P T s m _ hm h
    obtain ⟨s2, h2, h3⟩ := key hq ho
    rw [h2] at h
    cases h
    exact ⟨ho, h3⟩
  · intro hm
    rcases hm with hm | hm | hm | hm
    · rw [HandleMessage_notification P s m hm]
      refine ⟨?_, fun _ => ⟨_, rfl⟩⟩
      intro s1 res h
      cases h
      exact ⟨rfl, fun T => by cases T <;> rfl⟩
    · rw [HandleMessage_master P s m hm]
      constructor
      · intro s1 res h
        cases hc : s.client with
        | none => simp [Close, hc] at h
        | some a =>
          simp [Close, hc] at h
          obtain ⟨h, -⟩ := h
          subst h
          exact ⟨rfl, fun T => by cases T <;> rfl⟩
      · intro hc
        rcases hc with hc | hc
        · exact absurd hm hc
        · cases hc2 : s.client with
          | none => exact absurd hc2 hc
          | some a => simp [Close, hc2]
    · rw [HandleMessage_ping P s m hm]
      refine ⟨?_, fun _ => ⟨_, rfl⟩⟩
      intro s1 res h
      cases h
      exact ⟨rfl, fun T => rfl⟩
    · rw [HandleMessage_connect P s m hm]
      refine ⟨?_, fun _ => ⟨_, rfl⟩⟩
      intro s1 res h
      cases h
      exact ⟨rfl, fun T => by cases T <;> rfl⟩

/-- Witness of C4: a CREATE response on a client with one pending `Create`. -/
theorem C4_outgoing_pop_rule_witness :
    (∀ s1 res, HandleMessage demoProto (demoClient.call .Create demoA)
        ⟨.MT_CREATE, "", ""⟩ = some (s1, res) →
      (demoClient.call .Create demoA).outgoing_queue ≠ [] ∧
      s1.outgoing_queue = (demoClient.call .Create demoA).outgoing_queue.tail) ∧
    ((demoClient.call .Create demoA).queue .Create ≠ [] →
      (demoClient.call .Create demoA).outgoing_queue ≠ [] →
      ∃ s1, HandleMessage demoProto (demoClient.call .Create demoA)
          ⟨.MT_CREATE, "", ""⟩ = some (s1, true) ∧
        s1.outgoing_queue = (demoClient.call .Create demoA).outgoing_queue.tail) ∧
    (demoClient.call .Create demoA).queue .Create ≠ [] ∧
    (demoClient.call .Create demoA).outgoing_queue ≠ [] :=
  ⟨((C4_outgoing_pop_rule demoProto (demoClient.call .Create demoA)
      ⟨.MT_CREATE, "", ""⟩).1 .Create rfl).1,
   ((C4_outgoing_pop_rule demoProto (demoClient.call .Create demoA)
      ⟨.MT_CREATE, "", ""⟩).1 .Create rfl).2,
   by decide, by decide⟩

theorem Start_session_id (s : SaberClient) : s.Start.session_id = s.session_id := by
  unfold Start; split <;> rfl

theorem Stop_session_id (s s1 : SaberClient) (h : s.Stop = some s1) :
    s1.session_id = s.session_id := by
  unfold Stop Close at h
  split at h
  · split at h
    · cases h
    · cases h; rfl
  · cases h; rfl

theorem OnFailue_session_id (s : SaberClient) : s.OnFailue.session_id = s.session_id := by
  unfold OnFailue; simp only; split <;> rfl

theorem OnClose_session_id (s : SaberClient) (p : ConnId) :
    (s.OnClose p).session_id = s.session_id := by
  unfold OnClose; split
  · split <;> rfl
  · rfl

theorem HandleMessage_session_id (P : Proto) (s s1 : SaberClient) (m : SaberMessage)
    (res : Bool) (h : HandleMessage P s m = some (s1, res)) :
    s1.session_id = if m.type = .MT_CONNECT then (P.ConnectResponse_Parse m.data).session_id
      else s.session_id := by
  cases hm : m.type
  case MT_CONNECT =>
    rw [HandleMessage_connect P s m hm] at h; cases h; simp [TriggerWatchers]
  case MT_NOTIFICATION =>
    rw [HandleMessage_notification P s m hm] at h; cases h; simp [TriggerWatchers]
  case MT_PING =>
    rw [HandleMessage_ping P s m hm] at h; cases h; simp
  case MT_MASTER =>
    rw [HandleMessage_master P s m hm] at h
    cases hc : s.client with
    | none => simp [Close, hc] at h
    | some a =>
      simp [Close, hc] at h
      obtain ⟨h, -⟩ := h
      subst h
      simp
  case MT_SET_WATCHES =>
    rw [HandleMessage_other P s m (Or.inl hm)] at h; cases h
  case MT_CLOSE =>
    rw [HandleMessage_other P s m (Or.inr hm)] at h; cases h
  all_goals
    obtain ⟨T, hT⟩ := (isOpType_iff m.type).1 (by rw [hm]; rfl)
    simpa using (HandleMessage_op_frame P T s s1 m res hT h).2.1

theorem getLast?_cons_getD {α : Type} (a d : α) (l : List α) :
    (a :: l).getLast?.getD d = l.getLast?.getD a := by
  cases l with
  | nil => rfl
  | cons b l =>
    rw [List.getLast?_cons_cons]
    cases h : (b :: l).getLast? with
    | none => simp at h
    | some x => rfl

theorem run_session_id (P : Proto) (es : List Event) :
    ∀ s s1 : SaberClient, run P s es = some s1 →
      s1.session_id = (connectResponses P es).getLast?.getD s.session_id := by
  induction es with
  | nil => intro s s1 h; simp [run] at h; subst h; rfl
  | cons e es ih =>
    intro s s1 h
    simp only [run] at h
    cases hs : step P s e with
    | none => simp [hs] at h
    | some s2 =>
      simp only [hs] at h
      have h2 := ih s2 s1 h
      cases e with
      | message m =>
        simp only [step] at hs
        cases hh : HandleMessage P s m with
        | none => simp [hh] at hs
        | some x =>
          obtain ⟨s3, res⟩ := x
          simp [hh] at hs
          subst hs
          have h3 := HandleMessage_session_id P s s3 m res hh
          by_cases hm : m.type = .MT_CONNECT
          · simp only [connectResponses, hm, if_true] at h3 ⊢
            rw [getLast?_cons_getD, ← h3]; exact h2
          · simp only [connectResponses, hm, if_false] at h3 ⊢
            rw [← h3]; exact h2
      | Start =>
        simp only [step] at hs; cases hs
        simpa [connectResponses, Start_session_id] using h2
      | Stop =>
        simp only [step] at hs
        simpa [connectResponses, Stop_session_id s s2 hs] using h2
      | call T c =>
        simp only [step] at hs; cases hs
        simpa [connectResponses, call_session_id] using h2
      | OnConnection p =>
        simp only [step] at hs; cases hs
        simpa [connectResponses, OnConnection] using h2
      | OnFailue =>
        simp only [step] at hs; cases hs
        simpa [connectResponses, OnFailue_session_id] using h2
      | OnClose p =>
        simp only [step] at hs; cases hs
        simpa [connectResponses, OnClose_session_id] using h2

/-- C5: the CONNECT handshake echoes the session id.  On a client reached from
construction by any sequence of events, the CONNECT message `OnConnection`
sends carries session id 0 if no CONNECT response was handled, and otherwise
the session id of the last CONNECT response handled; and handling a message of
any other type leaves the stored session id as it was. -/
theorem C5_connect_echoes_session_id (P : Proto) (options : ClientOptions)
    (watcher : Option Watcher) (es : List Event) (s : SaberClient) (p : ConnId)
    (h : run P (SaberClient.new options watcher) es = some s) :
    (OnConnection P s p).trace = s.trace ++
      Effect.send (some p) ⟨.MT_CONNECT,
          P.ConnectRequest_Serialize ((connectResponses P es).getLast?.getD 0), s.root⟩
        :: s.outgoing_queue.map (fun m => Effect.send (some p) m) ∧
    (∀ (s0 s1 : SaberClient) (m : SaberMessage) (res : Bool), m.type ≠ .MT_CONNECT →
      HandleMessage P s0 m = some (s1, res) → s1.session_id = s0.session_id) := by
  constructor
  · have hs := run_session_id P es _ s h
    simp only [SaberClient.new] at hs
    simp [OnConnection, connectMessage, hs]
  · intro s0 s1 m res hm hh
    simpa [hm] using HandleMessage_session_id P s0 s1 m res hh

end saber

namespace saber

open SaberClient

/-- The events of a first connection answered with a CONNECT response whose
session id is 3. -/
theorem demoEvents_run :
    ∃ s, run demoProto demoClient
        [.Start, .OnConnection 1, .message ⟨.MT_CONNECT, "abc", ""⟩, .OnClose 1] = some s := by
  cases h : run demoProto demoClient
      [.Start, .OnConnection 1, .message ⟨.MT_CONNECT, "abc", ""⟩, .OnClose 1] with
  | none => exact absurd h (by decide)
  | some s => exact ⟨s, rfl⟩

/-- Witness of C5: after a CONNECT response with session id 3, the next
handshake carries session id 3. -/
theorem C5_connect_echoes_session_id_witness :
    ∃ s, run demoProto (SaberClient.new demoOptions (some 7))
        [.Start, .OnConnection 1, .message ⟨.MT_CONNECT, "abc", ""⟩, .OnClose 1] = some s ∧
      (OnConnection demoProto s 2).trace = s.trace ++
        Effect.send (some 2) ⟨.MT_CONNECT, "sss", s.root⟩
          :: s.outgoing_queue.map (fun m => Effect.send (some 2) m) := by
  obtain ⟨s, h⟩ := demoEvents_run
  exact ⟨s, h, (C5_connect_echoes_session_id demoProto demoOptions (some 7) _ s 2 h).1⟩

theorem callbacks_append (l1 l2 : List Effect) :
    callbacks (l1 ++ l2) = callbacks l1 ++ callbacks l2 := by
  simp [callbacks]

theorem callbacks_map_send (p : Option ConnId) (ms : List SaberMessage) :
    callbacks (ms.map (fun m => Effect.send p m)) = [] := by
  simp [callbacks]

theorem Close_some (s : SaberClient) (h : s.client ≠ none) :
    Close s = some { s with trace := s.trace ++ [Effect.close] } := by
  unfold Close
  cases hc : s.client with
  | none => exact absurd hc h
  | some a => rfl

theorem OnClose_master (s : SaberClient) (p : ConnId) (h1 : s.has_started = true)
    (h2 : s.master.host ≠ "") :
    s.OnClose p = Connect s ⟨s.master.host, s.master.port % 65536⟩ := by
  simp [OnClose, h1, h2]

theorem call_has_started (s : SaberClient) (T : Op) (c : Submission) :
    (s.call T c).has_started = s.has_started := by
  cases T <;> rfl

theorem call_client (s : SaberClient) (T : Op) (c : Submission) :
    (s.call T c).client = s.client := by
  cases T <;> rfl

theorem HandleMessage_master_some (P : Proto) (s : SaberClient) (m : SaberMessage)
    (hm : m.type = .MT_MASTER) (hc : s.client ≠ none) :
    ∃ s2, HandleMessage P s m = some (s2, false) ∧
      s2.trace = s.trace ++ [Effect.close] ∧ s2.master = P.Master_Parse m.data ∧
      s2.has_started = s.has_started ∧ s2.outgoing_queue = s.outgoing_queue ∧
      (∀ T, s2.queue T = s.queue T) ∧ s2.session_id = s.session_id ∧ s2.root = s.root ∧
      s2.server_manager = s.server_manager ∧ s2.client = s.client := by
  rw [HandleMessage_master P s m hm, Close_some _ (by simpa using hc)]
  exact ⟨_, rfl, rfl, rfl, rfl, rfl, fun T => by cases T <;> rfl, rfl, rfl, rfl, rfl⟩

theorem Connect_queue (s : SaberClient) (a : SockAddr) (T : Op) :
    (Connect s a).queue T = s.queue T := by
  cases T <;> rfl

theorem OnConnection_queue (P : Proto) (s : SaberClient) (p : ConnId) (T : Op) :
    (OnConnection P s p).queue T = s.queue T := by
  cases T <;> rfl

/-- C3: master-redirect replay.  A request of operation `T` is submitted on a
started client whose queue of `T` is empty; the server answers with a MASTER
message naming the endpoint `(B, port)`, a non-empty host and a 16-bit port;
the connection closes.  Then the client requests the close, connects to
`(B, port)`, sends on the new connection CONNECT followed by the buffered
messages, the last of which is the original request, and the response of type
`T` dispatches the callback of the request; over the whole scenario that is the
only callback dispatched. -/
theorem C3_master_redirect_replay (P : Proto) (T : Op) (c : Submission)
    (s0 : SaberClient) (B : String) (port : Nat) (p1 p2 : ConnId)
    (mm mr : SaberMessage)
    (hstarted : s0.has_started = true) (hclient : s0.client ≠ none)
    (hq : s0.queue T = [])
    (hmm : mm.type = .MT_MASTER) (hB : P.Master_Parse mm.data = ⟨B, port⟩)
    (hBne : B ≠ "") (hport : port < 65536) (hmr : mr.type = T.type) :
    ∃ s2 s5,
      HandleMessage P (s0.call T c) mm = some (s2, false) ∧
      s2.trace = (s0.call T c).trace ++ [Effect.close] ∧
      (s2.OnClose p1).trace = s2.trace ++ [Effect.connect ⟨B, port⟩] ∧
      (OnConnection P (s2.OnClose p1) p2).trace = (s2.OnClose p1).trace ++
        Effect.send (some p2) ⟨.MT_CONNECT, P.ConnectRequest_Serialize s0.session_id, s0.root⟩
          :: (s0.outgoing_queue.map (fun m => Effect.send (some p2) m)
              ++ [Effect.send (some p2) (messageOf s0.root T c)]) ∧
      HandleMessage P (OnConnection P (s2.OnClose p1) p2) mr = some (s5, true) ∧
      s5.trace = (OnConnection P (s2.OnClose p1) p2).trace ++
        [Effect.callback T.type c.cb c.request.path c.context
          (P.Response_Parse T.type mr.data)] ∧
      callbacks s5.trace = callbacks s0.trace ++
        [Effect.callback T.type c.cb c.request.path c.context
          (P.Response_Parse T.type mr.data)] ∧
      s5.queue T = [] := by
  have hq1 : (s0.call T c).queue T = [pendingOf T c] := by
    rw [call_queue_self, hq]; rfl
  have ho1 := call_outgoing s0 T c
  have hr1 := call_root s0 T c
  have hsid1 := call_session_id s0 T c
  have hst1 := call_has_started s0 T c
  have hcl1 := call_client s0 T c
  have htr1 := call_trace s0 T c
  generalize s0.call T c = s1 at *
  obtain ⟨s2, h2, ht2, hm2, hst2, ho2, hq2, hsid2, hr2, -, -⟩ :=
    HandleMessage_master_some P s1 mm hmm (by rw [hcl1]; exact hclient)
  have hOnClose : s2.OnClose p1 = Connect s2 ⟨B, port⟩ := by
    rw [OnClose_master s2 p1 (by rw [hst2, hst1, hstarted]) (by rw [hm2, hB]; exact hBne),
      hm2, hB]
    simp [Nat.mod_eq_of_lt hport]
  have ht4 : (OnConnection P (s2.OnClose p1) p2).trace = (s2.OnClose p1).trace ++
      Effect.send (some p2) ⟨.MT_CONNECT, P.ConnectRequest_Serialize s0.session_id, s0.root⟩
        :: (s0.outgoing_queue.map (fun m => Effect.send (some p2) m)
            ++ [Effect.send (some p2) (messageOf s0.root T c)]) := by
    rw [hOnClose]
    simp [OnConnection, connectMessage, Connect, ho2, ho1, hsid2, hsid1, hr2, hr1]
  have ho4 : (OnConnection P (s2.OnClose p1) p2).outgoing_queue
      = s0.outgoing_queue ++ [messageOf s0.root T c] := by
    rw [hOnClose]
    simp [OnConnection, Connect, ho2, ho1]
  have hq4 : (OnConnection P (s2.OnClose p1) p2).queue T = [pendingOf T c] := by
    rw [hOnClose, OnConnection_queue, Connect_queue, hq2, hq1]
  obtain ⟨o, os, ho4c⟩ := List.exists_cons_of_ne_nil
    (show (OnConnection P (s2.OnClose p1) p2).outgoing_queue ≠ [] by rw [ho4]; simp)
  obtain ⟨s5, h5, ht5, hq5, -, -⟩ := HandleMessage_op P T
    (OnConnection P (s2.OnClose p1) p2) mr (pendingOf T c) [] o os hmr hq4 ho4c
  rw [callbackTask_pendingOf] at ht5
  have ht3 : (s2.OnClose p1).trace = s2.trace ++ [Effect.connect ⟨B, port⟩] := by
    rw [hOnClose]; rfl
  refine ⟨s2, s5, h2, ht2, ht3, ht4, h5, ht5, ?_, hq5⟩
  rw [ht5, ht4, ht3, ht2, htr1]
  simp [callbacks_append, callbacks_map_send, callbacks]

/-- Witness of C3: a `Create` on a started client, redirected to `10.0.0.2:8889`. -/
theorem C3_master_redirect_replay_witness :
    demoClient.Start.has_started = true ∧ demoClient.Start.client ≠ none ∧
    demoClient.Start.queue .Create = [] ∧ "10.0.0.2" ≠ "" ∧ 8889 < 65536 ∧
    ∃ s2 s5,
      HandleMessage demoProto (demoClient.Start.call .Create demoA)
        ⟨.MT_MASTER, "10.0.0.2", ""⟩ = some (s2, false) ∧
      s2.trace = (demoClient.Start.call .Create demoA).trace ++ [Effect.close] ∧
      (s2.OnClose 1).trace = s2.trace ++ [Effect.connect ⟨"10.0.0.2", 8889⟩] ∧
      (OnConnection demoProto (s2.OnClose 1) 2).trace = (s2.OnClose 1).trace ++
        Effect.send (some 2) ⟨.MT_CONNECT,
            demoProto.ConnectRequest_Serialize demoClient.Start.session_id,
            demoClient.Start.root⟩
          :: (demoClient.Start.outgoing_queue.map (fun m => Effect.send (some 2) m)
              ++ [Effect.send (some 2) (messageOf demoClient.Start.root .Create demoA)]) ∧
      HandleMessage demoProto (OnConnection demoProto (s2.OnClose 1) 2)
        ⟨.MT_CREATE, "", ""⟩ = some (s5, true) ∧
      s5.trace = (OnConnection demoProto (s2.OnClose 1) 2).trace ++
        [Effect.callback Op.Create.type demoA.cb demoA.request.path demoA.context
          (demoProto.Response_Parse Op.Create.type "")] ∧
      callbacks s5.trace = callbacks demoClient.Start.trace ++
        [Effect.callback Op.Create.type demoA.cb demoA.request.path demoA.context
          (demoProto.Response_Parse Op.Create.type "")] ∧
      s5.queue .Create = [] :=
  ⟨by decide, by decide, by decide, by decide, by decide,
    C3_master_redirect_replay demoProto .Create demoA demoClient.Start "10.0.0.2" 8889 1 2
      ⟨.MT_MASTER, "10.0.0.2", ""⟩ ⟨.MT_CREATE, "", ""⟩
      (by decide) (by decide) (by decide) rfl rfl (by decide) (by decide) rfl⟩

end saber

namespace saber

open SaberClient

/-- C6, counterexample: a CONNECT response with session id 0 arrives while a
`Create` is pending.  The event handed to the default watcher has state
CONNECTED, the request stays queued, no callback is dispatched, the client
stays started, and on the next close it reconnects. -/
theorem C6_session_expiry_counterexample :
    (demoProto.ConnectResponse_Parse "").session_id = 0 ∧
    (HandleMessage demoProto demoPending ⟨.MT_CONNECT, "", ""⟩).map
      (fun x => (x.1.trace.drop demoPending.trace.length, x.1.create_queue,
        callbacks x.1.trace, x.1.has_started,
        (x.1.OnClose 1).trace.drop x.1.trace.length))
      = some ([Effect.process [7] ⟨.ET_NONE, .SS_CONNECTED, ""⟩], [⟨"/a", 1, none, 11⟩],
          [], true, [Effect.sleep 1000, Effect.connect ⟨"127.0.0.1", 8888⟩]) := by
  decide

/-- C6, as amended: a CONNECT response whose session id is 0 is handled like
any other CONNECT response.  The stored session id becomes 0, the default
watcher is handed an event of type NONE and state CONNECTED, no callback is
dispatched, `outgoing_queue` and the eight per-operation queues are unchanged,
and `has_started` is unchanged. -/
theorem C6_session_id_zero_reports_connected (P : Proto) (s : SaberClient)
    (m : SaberMessage) (hm : m.type = .MT_CONNECT)
    (h0 : (P.ConnectResponse_Parse m.data).session_id = 0) :
    ∃ s1, HandleMessage P s m = some (s1, true) ∧
      s1.trace = s.trace ++
        [Effect.process s.watch_manager.default_watcher.toList
          ⟨.ET_NONE, .SS_CONNECTED, ""⟩] ∧
      s1.session_id = 0 ∧ callbacks s1.trace = callbacks s.trace ∧
      s1.outgoing_queue = s.outgoing_queue ∧ (∀ T, s1.queue T = s.queue T) ∧
      s1.has_started = s.has_started := by
  rw [HandleMessage_connect P s m hm]
  refine ⟨_, rfl, ?_, ?_, ?_, rfl, ?_, rfl⟩
  · simp [TriggerWatchers, ClientWatchManager.Trigger]
  · simp [TriggerWatchers, h0]
  · simp [TriggerWatchers, callbacks_append, callbacks]
  · intro T; cases T <;> rfl

/-- Witness of C6 as amended, on the client of the counterexample. -/
theorem C6_session_id_zero_reports_connected_witness :
    (demoProto.ConnectResponse_Parse "").session_id = 0 ∧
    ∃ s1, HandleMessage demoProto demoPending ⟨.MT_CONNECT, "", ""⟩ = some (s1, true) ∧
      s1.trace = demoPending.trace ++
        [Effect.process demoPending.watch_manager.default_watcher.toList
          ⟨.ET_NONE, .SS_CONNECTED, ""⟩] ∧
      s1.session_id = 0 ∧ callbacks s1.trace = callbacks demoPending.trace ∧
      s1.outgoing_queue = demoPending.outgoing_queue ∧
      (∀ T, s1.queue T = demoPending.queue T) ∧
      s1.has_started = demoPending.has_started :=
  ⟨by decide, C6_session_id_zero_reports_connected demoProto demoPending
    ⟨.MT_CONNECT, "", ""⟩ rfl (by decide)⟩

end saber

namespace saber

open SaberClient

theorem Start_twice (s : SaberClient) : s.Start.Start = s.Start := by
  cases h : s.has_started <;> simp [Start, Connect, h]

theorem Start_fresh (s : SaberClient) (h : s.has_started = false) :
    s.Start.trace = s.trace ++ [Effect.connect s.server_manager.GetNext.1] := by
  simp [Start, Connect, h]

theorem Stop_twice (s : SaberClient) : s.Stop.bind Stop = s.Stop := by
  cases h : s.has_started <;> cases hc : s.client <;> simp [Stop, Close, h, hc]

theorem Stop_started (s : SaberClient) (h : s.has_started = true) (hc : s.client ≠ none) :
    s.Stop = some { s with has_started := false, trace := s.trace ++ [Effect.close] } := by
  cases hc2 : s.client with
  | none => exact absurd hc2 hc
  | some a => simp [Stop, Close, h, hc2]

theorem Stop_stopped (s : SaberClient) (h : s.has_started = false) : s.Stop = some s := by
  simp [Stop, h]

theorem legacy_Start_twice (s : legacy.SaberClient) : s.Start.Start = s.Start := by
  cases h : s.has_started <;>
    simp [legacy.SaberClient.Start, legacy.SaberClient.Connect, h]

theorem legacy_Start_fresh (s : legacy.SaberClient) (h : s.has_started = false) :
    s.Start.trace = s.trace ++ [Effect.connect s.server_manager.GetNext.1] := by
  simp [legacy.SaberClient.Start, legacy.SaberClient.Connect, h]

theorem legacy_Stop_twice (s : legacy.SaberClient) :
    s.Stop.bind legacy.SaberClient.Stop = s.Stop := by
  cases h : s.has_started <;> cases hc : s.client <;>
    simp [legacy.SaberClient.Stop, legacy.SaberClient.Close, h, hc]

theorem legacy_Stop_started (s : legacy.SaberClient) (h : s.has_started = true)
    (hc : s.client ≠ none) :
    s.Stop = some { s with has_started := false, trace := s.trace ++ [Effect.close] } := by
  cases hc2 : s.client with
  | none => exact absurd hc2 hc
  | some a => simp [legacy.SaberClient.Stop, legacy.SaberClient.Close, h, hc2]

theorem legacy_Stop_stopped (s : legacy.SaberClient) (h : s.has_started = false) :
    s.Stop = some s := by
  simp [legacy.SaberClient.Stop, h]

/-- C7: `Start` and `Stop` are idempotent, in both revisions.  `Start` twice
leaves the state (its trace of effects included) of a single `Start`, and on a
client that is not started that is exactly one connection attempt.  `Stop`
twice leaves the state of a single `Stop`, and on a started client that is
exactly one `Close` request.  `Stop` on a client that is not started requests
no close and changes nothing. -/
theorem C7_start_stop_idempotent (s : SaberClient) (t : legacy.SaberClient) :
    (s.Start.Start = s.Start ∧
      (s.has_started = false →
        s.Start.Start.trace = s.trace ++ [Effect.connect s.server_manager.GetNext.1]) ∧
      s.Stop.bind Stop = s.Stop ∧
      (s.has_started = true → s.client ≠ none →
        ∃ s1, s.Stop.bind Stop = some s1 ∧ s1.trace = s.trace ++ [Effect.close]) ∧
      (s.has_started = false → s.Stop = some s)) ∧
    (t.Start.Start = t.Start ∧
      (t.has_started = false →
        t.Start.Start.trace = t.trace ++ [Effect.connect t.server_manager.GetNext.1]) ∧
      t.Stop.bind legacy.SaberClient.Stop = t.Stop ∧
      (t.has_started = true → t.client ≠ none →
        ∃ t1, t.Stop.bind legacy.SaberClient.Stop = some t1 ∧
          t1.trace = t.trace ++ [Effect.close]) ∧
      (t.has_started = false → t.Stop = some t)) := by
  refine ⟨⟨Start_twice s, ?_, Stop_twice s, ?_, Stop_stopped s⟩,
    ⟨legacy_Start_twice t, ?_, legacy_Stop_twice t, ?_, legacy_Stop_stopped t⟩⟩
  · intro h; rw [Start_twice, Start_fresh s h]
  · intro h hc; rw [Stop_twice, Stop_started s h hc]; exact ⟨_, rfl, rfl⟩
  · intro h; rw [legacy_Start_twice, legacy_Start_fresh t h]
  · intro h hc; rw [legacy_Stop_twice, legacy_Stop_started t h hc]; exact ⟨_, rfl, rfl⟩

/-- Witness of C7: a fresh client for `Start`, a started one for `Stop`, in
both revisions. -/
theorem C7_start_stop_idempotent_witness :
    demoClient.has_started = false ∧ demoLegacy.has_started = false ∧
    demoClient.Start.has_started = true ∧ demoClient.Start.client ≠ none ∧
    demoLegacy.Start.has_started = true ∧ demoLegacy.Start.client ≠ none ∧
    demoClient.Start.Start.trace
      = demoClient.trace ++ [Effect.connect demoClient.server_manager.GetNext.1] ∧
    demoLegacy.Start.Start.trace
      = demoLegacy.trace ++ [Effect.connect demoLegacy.server_manager.GetNext.1] ∧
    demoClient.Stop = some demoClient ∧ demoLegacy.Stop = some demoLegacy ∧
    (∃ s1, demoClient.Start.Stop.bind Stop = some s1 ∧
      s1.trace = demoClient.Start.trace ++ [Effect.close]) ∧
    (∃ t1, demoLegacy.Start.Stop.bind legacy.SaberClient.Stop = some t1 ∧
      t1.trace = demoLegacy.Start.trace ++ [Effect.close]) :=
  ⟨by decide, by decide, by decide, by decide, by decide, by decide,
    (C7_start_stop_idempotent demoClient demoLegacy).1.2.1 (by decide),
    (C7_start_stop_idempotent demoClient demoLegacy).2.2.1 (by decide),
    (C7_start_stop_idempotent demoClient demoLegacy).1.2.2.2.2 (by decide),
    (C7_start_stop_idempotent demoClient demoLegacy).2.2.2.2.2 (by decide),
    (C7_start_stop_idempotent demoClient.Start demoLegacy.Start).1.2.2.2.1
      (by decide) (by decide),
    (C7_start_stop_idempotent demoClient.Start demoLegacy.Start).2.2.2.2.1
      (by decide) (by decide)⟩

/-- C8, counterexample: `Stop` on a started client with a pending `Create`
requests the close and nothing else: no callback is dispatched and the request
stays in its queue. -/
theorem C8_stop_fails_pending_counterexample :
    demoPending.has_started = true ∧
    demoPending.Stop.map (fun s => (s.trace.drop demoPending.trace.length,
        callbacks s.trace, s.create_queue))
      = some ([Effect.close], [], [⟨"/a", 1, none, 11⟩]) := by
  decide

/-- C8, as amended: `Stop` on a started client clears `has_started` and
requests the close of the connection; it dispatches no callback and leaves
`outgoing_queue` and the eight per-operation queues as they were. -/
theorem C8_stop_closes_and_keeps_pending (s : SaberClient)
    (h : s.has_started = true) (hc : s.client ≠ none) :
    ∃ s1, s.Stop = some s1 ∧ s1.has_started = false ∧
      s1.trace = s.trace ++ [Effect.close] ∧ callbacks s1.trace = callbacks s.trace ∧
      s1.outgoing_queue = s.outgoing_queue ∧ (∀ T, s1.queue T = s.queue T) := by
  rw [Stop_started s h hc]
  refine ⟨_, rfl, rfl, rfl, ?_, rfl, ?_⟩
  · simp [callbacks_append, callbacks]
  · intro T; cases T <;> rfl

/-- Witness of C8 as amended, on the client of the counterexample. -/
theorem C8_stop_closes_and_keeps_pending_witness :
    demoPending.has_started = true ∧ demoPending.client ≠ none ∧
    ∃ s1, demoPending.Stop = some s1 ∧ s1.has_started = false ∧
      s1.trace = demoPending.trace ++ [Effect.close] ∧
      callbacks s1.trace = callbacks demoPending.trace ∧
      s1.outgoing_queue = demoPending.outgoing_queue ∧
      (∀ T, s1.queue T = demoPending.queue T) :=
  ⟨by decide, by decide,
    C8_stop_closes_and_keeps_pending demoPending (by decide) (by decide)⟩

end saber

namespace saber

open SaberClient

theorem Start_outgoing (s : SaberClient) : s.Start.outgoing_queue = s.outgoing_queue := by
  unfold Start; split <;> rfl

theorem Stop_outgoing (s s1 : SaberClient) (h : s.Stop = some s1) :
    s1.outgoing_queue = s.outgoing_queue := by
  unfold Stop Close at h
  split at h
  · split at h
    · cases h
    · cases h; rfl
  · cases h; rfl

theorem OnFailue_outgoing (s : SaberClient) :
    s.OnFailue.outgoing_queue = s.outgoing_queue := by
  unfold OnFailue; simp only; split <;> rfl

theorem OnClose_outgoing (s : SaberClient) (p : ConnId) :
    (s.OnClose p).outgoing_queue = s.outgoing_queue := by
  unfold OnClose; split
  · split <;> rfl
  · rfl

theorem OnFailue_queue (s : SaberClient) (T : Op) : s.OnFailue.queue T = s.queue T := by
  unfold OnFailue; simp only; split <;> cases T <;> rfl

theorem OnClose_queue (s : SaberClient) (p : ConnId) (T : Op) :
    (s.OnClose p).queue T = s.queue T := by
  unfold OnClose; split
  · split <;> cases T <;> rfl
  · rfl

theorem OnFailue_callbacks (s : SaberClient) :
    callbacks s.OnFailue.trace = callbacks s.trace := by
  unfold OnFailue; simp only; split
  · simp [Connect, callbacks_append, callbacks]
  · rfl

theorem OnClose_callbacks (s : SaberClient) (p : ConnId) :
    callbacks (s.OnClose p).trace = callbacks s.trace := by
  unfold OnClose; split
  · split <;> simp [Connect, callbacks_append, callbacks]
  · rfl

theorem OnFailue_root (s : SaberClient) : s.OnFailue.root = s.root := by
  unfold OnFailue; simp only; split <;> rfl

theorem OnClose_root (s : SaberClient) (p : ConnId) : (s.OnClose p).root = s.root := by
  unfold OnClose; split
  · split <;> rfl
  · rfl

theorem HandleMessage_outgoing_mem (P : Proto) (s s1 : SaberClient) (m : SaberMessage)
    (res : Bool) (h : HandleMessage P s m = some (s1, res)) :
    ∀ x ∈ s1.outgoing_queue, x ∈ s.outgoing_queue := by
  cases hm : m.type
  case MT_CONNECT =>
    rw [HandleMessage_connect P s m hm] at h; cases h; exact fun x hx => hx
  case MT_NOTIFICATION =>
    rw [HandleMessage_notification P s m hm] at h; cases h; exact fun x hx => hx
  case MT_PING =>
    rw [HandleMessage_ping P s m hm] at h; cases h; exact fun x hx => hx
  case MT_MASTER =>
    rw [HandleMessage_master P s m hm] at h
    cases hc : s.client with
    | none => simp [Close, hc] at h
    | some a =>
      simp [Close, hc] at h
      obtain ⟨h, -⟩ := h
      subst h
      exact fun x hx => hx
  case MT_SET_WATCHES =>
    rw [HandleMessage_other P s m (Or.inl hm)] at h; cases h
  case MT_CLOSE =>
    rw [HandleMessage_other P s m (Or.inr hm)] at h; cases h
  all_goals
    obtain ⟨T, hT⟩ := (isOpType_iff m.type).1 (by rw [hm]; rfl)
    obtain ⟨hq, ho⟩ := HandleMessage_op_some P T s m _ hT h
    obtain ⟨r, rest, hq⟩ := List.exists_cons_of_ne_nil hq
    obtain ⟨o, os, ho⟩ := List.exists_cons_of_ne_nil ho
    obtain ⟨s2, h2, -, -, ho2, -⟩ := HandleMessage_op P T s m r rest o os hT hq ho
    rw [h2] at h
    cases h
    intro x hx
    rw [ho2] at hx
    rw [ho]
    exact List.mem_cons_of_mem _ hx

theorem messageOf_isOpType (root : String) (T : Op) (c : Submission) :
    isOpType (messageOf root T c).type = true := by
  cases T <;> rfl

theorem step_outgoing_opType (P : Proto) (s s1 : SaberClient) (e : Event)
    (hs : ∀ x ∈ s.outgoing_queue, isOpType x.type = true) (h : step P s e = some s1) :
    ∀ x ∈ s1.outgoing_queue, isOpType x.type = true := by
  cases e with
  | Start => simp only [step] at h; cases h; rw [Start_outgoing]; exact hs
  | Stop => simp only [step] at h; rw [Stop_outgoing s s1 h]; exact hs
  | call T c =>
    simp only [step] at h; cases h
    rw [call_outgoing]
    intro x hx
    rcases List.mem_append.1 hx with hx | hx
    · exact hs x hx
    · rw [List.mem_singleton.1 hx]; exact messageOf_isOpType _ _ _
  | OnConnection p => simp only [step] at h; cases h; exact hs
  | OnFailue => simp only [step] at h; cases h; rw [OnFailue_outgoing]; exact hs
  | OnClose p => simp only [step] at h; cases h; rw [OnClose_outgoing]; exact hs
  | message m =>
    simp only [step] at h
    cases hh : HandleMessage P s m with
    | none => simp [hh] at h
    | some y =>
      obtain ⟨s2, res⟩ := y
      simp [hh] at h
      subst h
      exact fun x hx => hs x (HandleMessage_outgoing_mem P s s2 m res hh x hx)

theorem run_outgoing_opType (P : Proto) (es : List Event) :
    ∀ s s1 : SaberClient, (∀ x ∈ s.outgoing_queue, isOpType x.type = true) →
      run P s es = some s1 → ∀ x ∈ s1.outgoing_queue, isOpType x.type = true := by
  induction es with
  | nil => intro s s1 hs h; simp [run] at h; subst h; exact hs
  | cons e es ih =>
    intro s s1 hs h
    simp only [run] at h
    cases hstep : step P s e with
    | none => simp [hstep] at h
    | some s2 =>
      simp only [hstep] at h
      exact ih s2 s1 (step_outgoing_opType P s s2 e hs hstep) h

/-- C9, counterexample: a client constructed with `auto_watch_reset = true`
holds the data watch of watcher 5 on `/k` when its connection is lost; on the
next connection `OnConnection` sends the CONNECT handshake and nothing else. -/
theorem C9_watch_reset_counterexample :
    demoWatching.map (fun s => (s.watch_manager.auto_watch_reset,
        s.watch_manager.data_watches, sentOn 2 (OnConnection demoProto s 2).trace))
      = some (true, [("/k", 5)], [⟨.MT_CONNECT, "", ""⟩]) := by
  decide

/-- C9, as amended: whatever `auto_watch_reset` and whatever watches are held,
on a client reached from construction by any sequence of events `OnConnection`
sends exactly the CONNECT handshake followed by the buffered requests, each of
one of the eight operation types; no SET_WATCHES request is among them. -/
theorem C9_no_set_watches_on_connection (P : Proto) (options : ClientOptions)
    (watcher : Option Watcher) (es : List Event) (s : SaberClient) (p : ConnId)
    (h : run P (SaberClient.new options watcher) es = some s) :
    (OnConnection P s p).trace = s.trace ++
      Effect.send (some p) ⟨.MT_CONNECT, P.ConnectRequest_Serialize s.session_id, s.root⟩
        :: s.outgoing_queue.map (fun m => Effect.send (some p) m) ∧
    (∀ m ∈ s.outgoing_queue, isOpType m.type = true) ∧
    (∀ m, Effect.send (some p) m ∈ (OnConnection P s p).trace.drop s.trace.length →
      m.type ≠ .MT_SET_WATCHES) := by
  have hop := run_outgoing_opType P es _ s (by simp [SaberClient.new]) h
  have ht : (OnConnection P s p).trace = s.trace ++
      Effect.send (some p) ⟨.MT_CONNECT, P.ConnectRequest_Serialize s.session_id, s.root⟩
        :: s.outgoing_queue.map (fun m => Effect.send (some p) m) := by
    simp [OnConnection, connectMessage]
  refine ⟨ht, hop, ?_⟩
  intro m hm
  rw [ht, List.drop_left] at hm
  rcases List.mem_cons.1 hm with hm | hm
  · cases hm; simp
  · obtain ⟨x, hx, hxm⟩ := List.mem_map.1 hm
    cases hxm
    intro hsw
    have := hop m hx
    rw [hsw] at this
    cases this

/-- Witness of C9 as amended, on the session of the counterexample. -/
theorem C9_no_set_watches_on_connection_witness :
    ∃ s, run demoProto (SaberClient.new demoOptions (some 7))
        [.Start, .OnConnection 1, .call .GetData demoK, .message ⟨.MT_GETDATA, "", ""⟩,
         .OnClose 1] = some s ∧
      (∀ m, Effect.send (some 2) m ∈ (OnConnection demoProto s 2).trace.drop s.trace.length →
        m.type ≠ .MT_SET_WATCHES) := by
  cases h : run demoProto (SaberClient.new demoOptions (some 7))
      [.Start, .OnConnection 1, .call .GetData demoK, .message ⟨.MT_GETDATA, "", ""⟩,
       .OnClose 1] with
  | none => exact absurd h (by decide)
  | some s =>
    exact ⟨s, rfl,
      (C9_no_set_watches_on_connection demoProto demoOptions (some 7) _ s 2 h).2.2⟩

end saber

namespace saber

open SaberClient

theorem legacy_OnFailue_outgoing (t : legacy.SaberClient) :
    t.OnFailue.outgoing_queue = t.outgoing_queue := by
  unfold legacy.SaberClient.OnFailue; split <;> rfl

theorem legacy_OnClose_outgoing (t : legacy.SaberClient) (p : ConnId) :
    (t.OnClose p).outgoing_queue = t.outgoing_queue := by
  unfold legacy.SaberClient.OnClose; split
  · split <;> rfl
  · rfl

theorem legacy_OnFailue_queue (t : legacy.SaberClient) (T : Op) :
    t.OnFailue.queue T = t.queue T := by
  unfold legacy.SaberClient.OnFailue; split <;> cases T <;> rfl

theorem legacy_OnClose_queue (t : legacy.SaberClient) (p : ConnId) (T : Op) :
    (t.OnClose p).queue T = t.queue T := by
  unfold legacy.SaberClient.OnClose; split
  · split <;> cases T <;> rfl
  · rfl

theorem legacy_OnFailue_callbacks (t : legacy.SaberClient) :
    callbacks t.OnFailue.trace = callbacks t.trace := by
  unfold legacy.SaberClient.OnFailue; split
  · simp [legacy.SaberClient.Connect, callbacks_append, callbacks]
  · rfl

theorem legacy_OnClose_callbacks (t : legacy.SaberClient) (p : ConnId) :
    callbacks (t.OnClose p).trace = callbacks t.trace := by
  unfold legacy.SaberClient.OnClose; split
  · split <;> simp [legacy.SaberClient.Connect, callbacks_append, callbacks]
  · rfl

/-- C10: connection loss does not fail pending requests, in both revisions.
`OnClose` and `OnFailue` leave `outgoing_queue` and the eight per-operation
queues as they were and dispatch no callback, so the next `OnConnection`
replays every message that was pending (after the CONNECT handshake, in the
newer revision). -/
theorem C10_connection_loss_keeps_pending (P : Proto) (s : SaberClient)
    (t : legacy.SaberClient) (p q : ConnId) :
    ((s.OnClose p).outgoing_queue = s.outgoing_queue ∧
      (∀ T, (s.OnClose p).queue T = s.queue T) ∧
      callbacks (s.OnClose p).trace = callbacks s.trace ∧
      s.OnFailue.outgoing_queue = s.outgoing_queue ∧
      (∀ T, s.OnFailue.queue T = s.queue T) ∧
      callbacks s.OnFailue.trace = callbacks s.trace ∧
      (OnConnection P (s.OnClose p) q).trace = (s.OnClose p).trace ++
        Effect.send (some q) ⟨.MT_CONNECT, P.ConnectRequest_Serialize s.session_id, s.root⟩
          :: s.outgoing_queue.map (fun m => Effect.send (some q) m) ∧
      (OnConnection P s.OnFailue q).trace = s.OnFailue.trace ++
        Effect.send (some q) ⟨.MT_CONNECT, P.ConnectRequest_Serialize s.session_id, s.root⟩
          :: s.outgoing_queue.map (fun m => Effect.send (some q) m)) ∧
    ((t.OnClose p).outgoing_queue = t.outgoing_queue ∧
      (∀ T, (t.OnClose p).queue T = t.queue T) ∧
      callbacks (t.OnClose p).trace = callbacks t.trace ∧
      t.OnFailue.outgoing_queue = t.outgoing_queue ∧
      (∀ T, t.OnFailue.queue T = t.queue T) ∧
      callbacks t.OnFailue.trace = callbacks t.trace ∧
      ((t.OnClose p).OnConnection q).trace = (t.OnClose p).trace ++
        t.outgoing_queue.map (fun m => Effect.send (some q) m) ∧
      (t.OnFailue.OnConnection q).trace = t.OnFailue.trace ++
        t.outgoing_queue.map (fun m => Effect.send (some q) m)) := by
  refine ⟨⟨OnClose_outgoing s p, OnClose_queue s p, OnClose_callbacks s p,
      OnFailue_outgoing s, OnFailue_queue s, OnFailue_callbacks s, ?_, ?_⟩,
    ⟨legacy_OnClose_outgoing t p, legacy_OnClose_queue t p, legacy_OnClose_callbacks t p,
      legacy_OnFailue_outgoing t, legacy_OnFailue_queue t, legacy_OnFailue_callbacks t,
      ?_, ?_⟩⟩
  · simp [OnConnection, connectMessage, OnClose_outgoing, OnClose_session_id, OnClose_root]
  · simp [OnConnection, connectMessage, OnFailue_outgoing, OnFailue_session_id,
      OnFailue_root]
  · simp [legacy.SaberClient.OnConnection, legacy_OnClose_outgoing]
  · simp [legacy.SaberClient.OnConnection, legacy_OnFailue_outgoing]

end saber

/-! ## Watch placement -/

namespace saber

open SaberClient

theorem HandleMessage_op_watch (P : Proto) (T : Op) (s : SaberClient) (m : SaberMessage)
    (r : Request) (rest : List Request) (o : SaberMessage) (os : List SaberMessage)
    (hm : m.type = T.type) (hq : s.queue T = r :: rest) (ho : s.outgoing_queue = o :: os) :
    ∃ s1, HandleMessage P s m = some (s1, true) ∧
      s1.watch_manager =
        match T, r.watcher with
        | .Exists, some w =>
            if (P.Response_Parse .MT_EXISTS m.data).code = RC_OK then
              s.watch_manager.AddDataWatch r.path w
            else s.watch_manager.AddExistWatch r.path w
        | .GetData, some w =>
            if (P.Response_Parse .MT_GETDATA m.data).code = RC_OK then
              s.watch_manager.AddDataWatch r.path w
            else s.watch_manager
        | .GetChildren, some w =>
            if (P.Response_Parse .MT_GETCHILDREN m.data).code = RC_OK then
              s.watch_manager.AddChildWatch r.path w
            else s.watch_manager
        | _, _ => s.watch_manager := by
  cases T <;> simp only [queue, Op.type] at hq hm <;>
    cases hw : r.watcher <;>
    simp only [HandleMessage, HandleMessage_switch, hm, hq, ho, hw] <;>
    simp

theorem addWatch_mem (ws : List (String × Watcher)) (path : String) (w : Watcher) :
    (path, w) ∈ addWatch ws path w := by
  unfold addWatch
  split
  · assumption
  · simp

/-- C12: watch placement for `GetData` and `GetChildren`.  A GETDATA (resp.
GETCHILDREN) response registers the watcher of the head request as a data
watch (resp. child watch) on the path of that request exactly when the request
carries a watcher and the response code is `RC_OK`: then the watch manager is
the old one after `AddDataWatch` (resp. `AddChildWatch`), and in every other
case it is unchanged.  Responses of type CREATE, DELETE, SETDATA, GETACL and
SETACL leave the watch manager unchanged. -/
theorem C12_watch_placement_reads (P : Proto) (s : SaberClient) (m : SaberMessage)
    (r : Request) (rest : List Request) (o : SaberMessage) (os : List SaberMessage)
    (ho : s.outgoing_queue = o :: os) :
    (m.type = .MT_GETDATA → s.get_data_queue = r :: rest →
      ∃ s1, HandleMessage P s m = some (s1, true) ∧
        (∀ w, r.watcher = some w → (P.Response_Parse .MT_GETDATA m.data).code = RC_OK →
          s1.watch_manager = s.watch_manager.AddDataWatch r.path w ∧
          (r.path, w) ∈ s1.watch_manager.data_watches ∧
          s1.watch_manager.exist_watches = s.watch_manager.exist_watches ∧
          s1.watch_manager.child_watches = s.watch_manager.child_watches) ∧
        (r.watcher = none ∨ (P.Response_Parse .MT_GETDATA m.data).code ≠ RC_OK →
          s1.watch_manager = s.watch_manager)) ∧
    (m.type = .MT_GETCHILDREN → s.children_queue = r :: rest →
      ∃ s1, HandleMessage P s m = some (s1, true) ∧
        (∀ w, r.watcher = some w → (P.Response_Parse .MT_GETCHILDREN m.data).code = RC_OK →
          s1.watch_manager = s.watch_manager.AddChildWatch r.path w ∧
          (r.path, w) ∈ s1.watch_manager.child_watches ∧
          s1.watch_manager.data_watches = s.watch_manager.data_watches ∧
          s1.watch_manager.exist_watches = s.watch_manager.exist_watches) ∧
        (r.watcher = none ∨ (P.Response_Parse .MT_GETCHILDREN m.data).code ≠ RC_OK →
          s1.watch_manager = s.watch_manager)) ∧
    (∀ T : Op, T = .Create ∨ T = .Delete ∨ T = .SetData ∨ T = .GetACL ∨ T = .SetACL →
      m.type = T.type → s.queue T = r :: rest →
      ∃ s1, HandleMessage P s m = some (s1, true) ∧ s1.watch_manager = s.watch_manager) := by
  refine ⟨?_, ?_, ?_⟩
  · intro hm hq
    obtain ⟨s1, h1, hw⟩ := HandleMessage_op_watch P .GetData s m r rest o os hm hq ho
    refine ⟨s1, h1, ?_, ?_⟩
    · intro w hw1 hc
      rw [hw1] at hw
      simp only [hc, if_true] at hw
      rw [hw]
      exact ⟨rfl, addWatch_mem _ _ _, rfl, rfl⟩
    · intro h
      rcases h with h | h
      · rw [h] at hw; exact hw
      · cases hw1 : r.watcher with
        | none => rw [hw1] at hw; exact hw
        | some w => rw [hw1] at hw; simpa [h] using hw
  · intro hm hq
    obtain ⟨s1, h1, hw⟩ := HandleMessage_op_watch P .GetChildren s m r rest o os hm hq ho
    refine ⟨s1, h1, ?_, ?_⟩
    · intro w hw1 hc
      rw [hw1] at hw
      simp only [hc, if_true] at hw
      rw [hw]
      exact ⟨rfl, addWatch_mem _ _ _, rfl, rfl⟩
    · intro h
      rcases h with h | h
      · rw [h] at hw; exact hw
      · cases hw1 : r.watcher with
        | none => rw [hw1] at hw; exact hw
        | some w => rw [hw1] at hw; simpa [h] using hw
  · intro T hT hm hq
    obtain ⟨s1, h1, hw⟩ := HandleMessage_op_watch P T s m r rest o os hm hq ho
    refine ⟨s1, h1, ?_⟩
    rcases hT with hT | hT | hT | hT | hT <;> subst hT <;> exact hw

/-- Witness of C12: a `GetData` on `/k` with watcher 5, answered with `RC_OK`
while a `Create` is still at the front of `outgoing_queue`. -/
theorem C12_watch_placement_reads_witness :
    demoTwoPending.outgoing_queue = [⟨.MT_CREATE, "req-a", ""⟩, ⟨.MT_GETDATA, "req-k", ""⟩] ∧
    demoTwoPending.get_data_queue = [⟨"/k", 2, some 5, 12⟩] ∧
    (demoProto.Response_Parse .MT_GETDATA "").code = RC_OK ∧
    ∃ s1, HandleMessage demoProto demoTwoPending ⟨.MT_GETDATA, "", ""⟩ = some (s1, true) ∧
      (∀ w, (⟨"/k", 2, some 5, 12⟩ : Request).watcher = some w →
        (demoProto.Response_Parse .MT_GETDATA
          (⟨.MT_GETDATA, "", ""⟩ : SaberMessage).data).code = RC_OK →
        s1.watch_manager = demoTwoPending.watch_manager.AddDataWatch "/k" w ∧
        ("/k", w) ∈ s1.watch_manager.data_watches ∧
        s1.watch_manager.exist_watches = demoTwoPending.watch_manager.exist_watches ∧
        s1.watch_manager.child_watches = demoTwoPending.watch_manager.child_watches) ∧
      ((⟨"/k", 2, some 5, 12⟩ : Request).watcher = none ∨
        (demoProto.Response_Parse .MT_GETDATA
          (⟨.MT_GETDATA, "", ""⟩ : SaberMessage).data).code ≠ RC_OK →
        s1.watch_manager = demoTwoPending.watch_manager) :=
  ⟨by decide, by decide, by decide,
    (C12_watch_placement_reads demoProto demoTwoPending ⟨.MT_GETDATA, "", ""⟩
      ⟨"/k", 2, some 5, 12⟩ [] ⟨.MT_CREATE, "req-a", ""⟩ [⟨.MT_GETDATA, "req-k", ""⟩]
      (by decide)).1 rfl (by decide)⟩

end saber

namespace saber

open SaberClient

/-- C13, counterexample: an `Exists` on `/k` with watcher 5 is answered with the
status codes 1 and 2, neither of them `RC_OK` and at most one of them NO_NODE.
Both responses register watcher 5 as an exist-watch on `/k`. -/
theorem C13_exists_watch_counterexample :
    (demoProto.Response_Parse .MT_EXISTS "x").code = 1 ∧
    (demoProto.Response_Parse .MT_EXISTS "xx").code = 2 ∧ RC_OK = 0 ∧
    (HandleMessage demoProto demoExists ⟨.MT_EXISTS, "x", ""⟩).map
        (fun x => (x.1.watch_manager.data_watches, x.1.watch_manager.exist_watches))
      = some ([], [("/k", 5)]) ∧
    (HandleMessage demoProto demoExists ⟨.MT_EXISTS, "xx", ""⟩).map
        (fun x => (x.1.watch_manager.data_watches, x.1.watch_manager.exist_watches))
      = some ([], [("/k", 5)]) := by
  decide

/-- C13, as amended: an EXISTS response whose head request carries a watcher
registers it on the path of the request, as a data watch if the response code
is `RC_OK` and as an exist-watch for every other response code, NO_NODE or
not; without a watcher the watch manager is unchanged. -/
theorem C13_exists_watch_on_any_failure (P : Proto) (s : SaberClient) (m : SaberMessage)
    (r : Request) (rest : List Request) (o : SaberMessage) (os : List SaberMessage)
    (hm : m.type = .MT_EXISTS) (hq : s.exists_queue = r :: rest)
    (ho : s.outgoing_queue = o :: os) :
    ∃ s1, HandleMessage P s m = some (s1, true) ∧
      (∀ w, r.watcher = some w → (P.Response_Parse .MT_EXISTS m.data).code = RC_OK →
        s1.watch_manager = s.watch_manager.AddDataWatch r.path w ∧
        (r.path, w) ∈ s1.watch_manager.data_watches) ∧
      (∀ w, r.watcher = some w → (P.Response_Parse .MT_EXISTS m.data).code ≠ RC_OK →
        s1.watch_manager = s.watch_manager.AddExistWatch r.path w ∧
        (r.path, w) ∈ s1.watch_manager.exist_watches) ∧
      (r.watcher = none → s1.watch_manager = s.watch_manager) := by
  obtain ⟨s1, h1, hw⟩ := HandleMessage_op_watch P .Exists s m r rest o os hm hq ho
  refine ⟨s1, h1, ?_, ?_, ?_⟩
  · intro w hw1 hc
    rw [hw1] at hw
    simp only [hc, if_true] at hw
    rw [hw]
    exact ⟨rfl, addWatch_mem _ _ _⟩
  · intro w hw1 hc
    rw [hw1] at hw
    simp only [hc, if_false] at hw
    rw [hw]
    exact ⟨rfl, addWatch_mem _ _ _⟩
  · intro hw1
    rw [hw1] at hw
    exact hw

/-- Witness of C13 as amended, on the client of the counterexample. -/
theorem C13_exists_watch_on_any_failure_witness :
    demoExists.exists_queue = [⟨"/k", 2, some 5, 12⟩] ∧
    demoExists.outgoing_queue = [⟨.MT_EXISTS, "req-k", ""⟩] ∧
    ∃ s1, HandleMessage demoProto demoExists ⟨.MT_EXISTS, "xx", ""⟩ = some (s1, true) ∧
      (∀ w, (⟨"/k", 2, some 5, 12⟩ : Request).watcher = some w →
        (demoProto.Response_Parse .MT_EXISTS
          (⟨.MT_EXISTS, "xx", ""⟩ : SaberMessage).data).code ≠ RC_OK →
        s1.watch_manager = demoExists.watch_manager.AddExistWatch "/k" w ∧
        ("/k", w) ∈ s1.watch_manager.exist_watches) :=
  ⟨by decide, by decide,
    let ⟨s1, h1, _, h3, _⟩ := C13_exists_watch_on_any_failure demoProto demoExists
      ⟨.MT_EXISTS, "xx", ""⟩ ⟨"/k", 2, some 5, 12⟩ [] ⟨.MT_EXISTS, "req-k", ""⟩ []
      rfl (by decide) (by decide)
    ⟨s1, h1, h3⟩⟩

/-- C14, counterexample: a `Create` and then a `GetData` are pending and the
GETDATA response arrives first, so its type differs from the type of the
message at the front of `outgoing_queue`.  `HandleMessage` returns true, adds
the callback of the `GetData` and no `Close` to the trace, and pops the CREATE
message off `outgoing_queue`. -/
theorem C14_stream_corruption_counterexample :
    demoTwoPending.outgoing_queue.map (fun m => m.type) = [.MT_CREATE, .MT_GETDATA] ∧
    (HandleMessage demoProto demoTwoPending ⟨.MT_GETDATA, "", ""⟩).map
        (fun x => (x.2, x.1.trace.drop demoTwoPending.trace.length,
          x.1.outgoing_queue.map (fun m => m.type)))
      = some (true, [Effect.callback .MT_GETDATA 12 "/k" 2 ⟨0, ""⟩], [.MT_GETDATA]) := by
  decide

/-- C14, as amended: for an operation response whose type differs from the type
of the message at the front of `outgoing_queue`, `HandleMessage` does not
compare the two.  Given a pending request of the type of the response, it
dispatches the callback of that request, requests no `Close`, removes the
front of `outgoing_queue` and returns true. -/
theorem C14_pop_without_type_check (P : Proto) (T : Op) (s : SaberClient)
    (m : SaberMessage) (r : Request) (rest : List Request) (o : SaberMessage)
    (os : List SaberMessage) (hm : m.type = T.type) (hq : s.queue T = r :: rest)
    (ho : s.outgoing_queue = o :: os) (_hne : o.type ≠ m.type) :
    ∃ s1, HandleMessage P s m = some (s1, true) ∧
      s1.trace = s.trace ++
        [Effect.callback T.type r.callback r.path r.context (P.Response_Parse T.type m.data)] ∧
      s1.outgoing_queue = os ∧ s1.queue T = rest := by
  obtain ⟨s1, h1, ht, hq1, ho1, -⟩ := HandleMessage_op P T s m r rest o os hm hq ho
  exact ⟨s1, h1, ht, ho1, hq1⟩

/-- Witness of C14 as amended, on the client of the counterexample. -/
theorem C14_pop_without_type_check_witness :
    demoTwoPending.queue .GetData = [⟨"/k", 2, some 5, 12⟩] ∧
    demoTwoPending.outgoing_queue
      = [⟨.MT_CREATE, "req-a", ""⟩, ⟨.MT_GETDATA, "req-k", ""⟩] ∧
    MessageType.MT_CREATE ≠ MessageType.MT_GETDATA ∧
    ∃ s1, HandleMessage demoProto demoTwoPending ⟨.MT_GETDATA, "", ""⟩ = some (s1, true) ∧
      s1.trace = demoTwoPending.trace ++
        [Effect.callback Op.GetData.type 12 "/k" 2
          (demoProto.Response_Parse Op.GetData.type "")] ∧
      s1.outgoing_queue = [⟨.MT_GETDATA, "req-k", ""⟩] ∧ s1.queue .GetData = [] :=
  ⟨by decide, by decide, by decide,
    C14_pop_without_type_check demoProto .GetData demoTwoPending ⟨.MT_GETDATA, "", ""⟩
      ⟨"/k", 2, some 5, 12⟩ [] ⟨.MT_CREATE, "req-a", ""⟩ [⟨.MT_GETDATA, "req-k", ""⟩]
      rfl (by decide) (by decide) (by decide)⟩

/-- C16, the older revision at the failing input: `GetData` and `Exists` on `/k`
are called with watcher 5 and answered with `RC_OK`.  No watch is registered,
and a data-changed notification for `/k` then fires no watcher; the newer
revision registers watcher 5 as a data watch on `/k` at the same input. -/
theorem C16_legacy_drops_read_watcher :
    demoLegacyWatching.map (fun t => t.watch_manager.data_watches) = some [] ∧
    demoLegacyWatching.map (fun t => t.watch_manager.exist_watches) = some [] ∧
    demoLegacyWatching.map (fun t => t.get_data_queue ++ t.exists_queue) = some [] ∧
    (demoLegacyWatching.bind (fun t =>
        (t.call .SetData demoA).OnMessage demoProto ⟨.MT_NOTIFICATION, "/k", ""⟩)).map
        (fun t1 => t1.trace.getLast?)
      = some (some (Effect.process [] ⟨.ET_NODE_DATA_CHANGED, .SS_CONNECTED, "/k"⟩)) ∧
    demoNewerWatching.map (fun s => s.watch_manager.data_watches) = some [("/k", 5)] := by
  decide

end saber

/-! ## Frame lemmas for single events -/

namespace saber

open SaberClient

theorem connects_append (l1 l2 : List Effect) :
    connects (l1 ++ l2) = connects l1 ++ connects l2 := by
  simp [connects, List.filterMap_append]

/-- What a message that is not an operation response leaves alone. -/
theorem HandleMessage_nonop (P : Proto) (s s1 : SaberClient) (m : SaberMessage) (res : Bool)
    (hm : isOpType m.type = false) (h : HandleMessage P s m = some (s1, res)) :
    s1.root = s.root ∧ s1.outgoing_queue = s.outgoing_queue ∧
      (∀ T, s1.queue T = s.queue T) ∧ callbacks s1.trace = callbacks s.trace ∧
      s1.client = s.client ∧ s1.has_started = s.has_started ∧
      connects s1.trace = connects s.trace ∧
      (m.type ≠ .MT_MASTER → s1.master = s.master) := by
  cases hmt : m.type <;> rw [hmt] at hm <;> simp [isOpType] at hm
  case MT_CONNECT =>
    rw [HandleMessage_connect P s m hmt] at h; cases h
    refine ⟨rfl, rfl, fun T => by cases T <;> rfl, ?_, rfl, rfl, ?_, fun _ => rfl⟩
    · simp [TriggerWatchers, callbacks_append, callbacks]
    · simp [TriggerWatchers, connects_append, connects]
  case MT_NOTIFICATION =>
    rw [HandleMessage_notification P s m hmt] at h; cases h
    refine ⟨rfl, rfl, fun T => by cases T <;> rfl, ?_, rfl, rfl, ?_, fun _ => rfl⟩
    · simp [TriggerWatchers, callbacks_append, callbacks]
    · simp [TriggerWatchers, connects_append, connects]
  case MT_PING =>
    rw [HandleMessage_ping P s m hmt] at h; cases h
    exact ⟨rfl, rfl, fun T => rfl, rfl, rfl, rfl, rfl, fun _ => rfl⟩
  case MT_MASTER =>
    rw [HandleMessage_master P s m hmt] at h
    cases hc : s.client with
    | none => simp [Close, hc] at h
    | some a =>
      simp [Close, hc] at h
      obtain ⟨h, -⟩ := h
      subst h
      refine ⟨rfl, rfl, fun T => by cases T <;> rfl, ?_, by simp [hc], rfl, ?_,
        fun hne => absurd rfl hne⟩
      · simp [callbacks_append, callbacks]
      · simp [connects_append, connects]
  case MT_SET_WATCHES =>
    rw [HandleMessage_other P s m (Or.inl hmt)] at h; cases h
  case MT_CLOSE =>
    rw [HandleMessage_other P s m (Or.inr hmt)] at h; cases h

/-- What an operation response leaves alone. -/
theorem HandleMessage_op_quiet (P : Proto) (s s1 : SaberClient) (m : SaberMessage)
    (res : Bool) (hm : isOpType m.type = true) (h : HandleMessage P s m = some (s1, res)) :
    s1.master = s.master ∧ s1.has_started = s.has_started ∧ s1.client = s.client ∧
      connects s1.trace = connects s.trace := by
  obtain ⟨T, hT⟩ := (isOpType_iff m.type).1 hm
  obtain ⟨-, -, hst, -, hma, hcl, -, -⟩ := HandleMessage_op_frame P T s s1 m res hT h
  obtain ⟨hq, ho⟩ := HandleMessage_op_some P T s m _ hT h
  obtain ⟨r, rest, hq⟩ := List.exists_cons_of_ne_nil hq
  obtain ⟨o, os, ho⟩ := List.exists_cons_of_ne_nil ho
  obtain ⟨s2, h2, ht, -, -, -⟩ := HandleMessage_op P T s m r rest o os hT hq ho
  rw [h2] at h
  cases h
  refine ⟨hma, hst, hcl, ?_⟩
  rw [ht]
  simp [connects_append, connects, callbackTask]

theorem Start_master (s : SaberClient) : s.Start.master = s.master := by
  unfold Start; split <;> rfl

theorem Stop_frame (s s1 : SaberClient) (h : s.Stop = some s1) :
    s1.has_started = false ∧ s1.master = s.master ∧ s1.root = s.root ∧
      s1.client = s.client ∧ (∀ T, s1.queue T = s.queue T) ∧
      callbacks s1.trace = callbacks s.trace ∧ connects s1.trace = connects s.trace := by
  cases hs : s.has_started
  · rw [Stop_stopped s hs] at h; cases h
    exact ⟨hs, rfl, rfl, rfl, fun _ => rfl, rfl, rfl⟩
  · by_cases hc : s.client = none
    · simp [Stop, Close, hs, hc] at h
    · rw [Stop_started s hs hc] at h; cases h
      refine ⟨rfl, rfl, rfl, rfl, fun T => by cases T <;> rfl, ?_, ?_⟩
      · simp [callbacks_append, callbacks]
      · simp [connects_append, connects]

theorem call_master (s : SaberClient) (T : Op) (c : Submission) :
    (s.call T c).master = s.master := by
  cases T <;> rfl

theorem call_connects (s : SaberClient) (T : Op) (c : Submission) :
    connects (s.call T c).trace = connects s.trace := by
  rw [call_trace]; simp [connects_append, connects]

theorem call_callbacks (s : SaberClient) (T : Op) (c : Submission) :
    callbacks (s.call T c).trace = callbacks s.trace := by
  rw [call_trace]; simp [callbacks_append, callbacks]

theorem OnConnection_connects (P : Proto) (s : SaberClient) (p : ConnId) :
    connects (OnConnection P s p).trace = connects s.trace := by
  simp [OnConnection, connects_append, connects]

theorem OnConnection_callbacks (P : Proto) (s : SaberClient) (p : ConnId) :
    callbacks (OnConnection P s p).trace = callbacks s.trace := by
  simp [OnConnection, callbacks_append, callbacks]

theorem OnClose_master_kept (s : SaberClient) (p : ConnId) :
    (s.OnClose p).master = s.master := by
  unfold OnClose; split
  · split <;> rfl
  · rfl

theorem OnClose_stopped (s : SaberClient) (p : ConnId) (h : s.has_started = false) :
    s.OnClose p = s := by
  simp [OnClose, h]

theorem OnFailue_stopped (s : SaberClient) (h : s.has_started = false) :
    s.OnFailue.trace = s.trace ∧ s.OnFailue.has_started = false := by
  simp [OnFailue, h]

theorem step_keepsHint (P : Proto) (s s1 : SaberClient) (e : Event)
    (he : keepsHint e = true) (h : step P s e = some s1) :
    s1.master = s.master ∧ (s1.has_started = true → s.has_started = true ∨ e = .Start) := by
  cases e with
  | Start =>
    simp only [step] at h; cases h
    exact ⟨Start_master s, fun _ => Or.inr rfl⟩
  | Stop =>
    simp only [step] at h
    obtain ⟨h1, h2, -⟩ := Stop_frame s s1 h
    exact ⟨h2, fun h3 => by rw [h1] at h3; cases h3⟩
  | call T c =>
    simp only [step] at h; cases h
    exact ⟨call_master s T c, fun h3 => Or.inl (by rwa [call_has_started] at h3)⟩
  | OnConnection p =>
    simp only [step] at h; cases h
    exact ⟨rfl, fun h3 => Or.inl h3⟩
  | OnFailue => simp [keepsHint] at he
  | OnClose p =>
    simp only [step] at h; cases h
    refine ⟨OnClose_master_kept s p, fun h3 => Or.inl ?_⟩
    cases hs : s.has_started
    · rw [OnClose_stopped s p hs, hs] at h3; cases h3
    · rfl
  | message m =>
    simp only [keepsHint, decide_eq_true_eq] at he
    simp only [step] at h
    cases hh : HandleMessage P s m with
    | none => simp [hh] at h
    | some y =>
      obtain ⟨s2, res⟩ := y
      simp [hh] at h
      subst h
      cases hop : isOpType m.type
      · obtain ⟨-, -, -, -, -, hst, -, hma⟩ := HandleMessage_nonop P s s2 m res hop hh
        exact ⟨hma he, fun h3 => Or.inl (by rwa [hst] at h3)⟩
      · obtain ⟨hma, hst, -, -⟩ := HandleMessage_op_quiet P s s2 m res hop hh
        exact ⟨hma, fun h3 => Or.inl (by rwa [hst] at h3)⟩

theorem run_keepsHint (P : Proto) (es : List Event) :
    ∀ s s1 : SaberClient, es.all keepsHint = true → run P s es = some s1 →
      s1.master = s.master := by
  induction es with
  | nil => intro s s1 _ h; simp [run] at h; subst h; rfl
  | cons e es ih =>
    intro s s1 hes h
    simp only [List.all_cons, Bool.and_eq_true] at hes
    simp only [run] at h
    cases hstep : step P s e with
    | none => simp [hstep] at h
    | some s2 =>
      simp only [hstep] at h
      rw [ih s2 s1 hes.2 h, (step_keepsHint P s s2 e hes.1 hstep).1]

theorem step_notStart (P : Proto) (s s1 : SaberClient) (e : Event)
    (he : notStart e = true) (hs : s.has_started = false) (h : step P s e = some s1) :
    s1.has_started = false ∧ connects s1.trace = connects s.trace := by
  cases e with
  | Start => simp [notStart] at he
  | Stop =>
    simp only [step] at h
    obtain ⟨h1, -, -, -, -, -, h2⟩ := Stop_frame s s1 h
    exact ⟨h1, h2⟩
  | call T c =>
    simp only [step] at h; cases h
    exact ⟨by rw [call_has_started, hs], call_connects s T c⟩
  | OnConnection p =>
    simp only [step] at h; cases h
    exact ⟨hs, OnConnection_connects P s p⟩
  | OnFailue =>
    simp only [step] at h; cases h
    obtain ⟨h1, h2⟩ := OnFailue_stopped s hs
    exact ⟨h2, by rw [h1]⟩
  | OnClose p =>
    simp only [step] at h; cases h
    rw [OnClose_stopped s p hs]
    exact ⟨hs, rfl⟩
  | message m =>
    simp only [step] at h
    cases hh : HandleMessage P s m with
    | none => simp [hh] at h
    | some y =>
      obtain ⟨s2, res⟩ := y
      simp [hh] at h
      subst h
      cases hop : isOpType m.type
      · obtain ⟨-, -, -, -, -, hst, hco, -⟩ := HandleMessage_nonop P s s2 m res hop hh
        exact ⟨by rw [hst, hs], hco⟩
      · obtain ⟨-, hst, -, hco⟩ := HandleMessage_op_quiet P s s2 m res hop hh
        exact ⟨by rw [hst, hs], hco⟩

theorem run_notStart (P : Proto) (es : List Event) :
    ∀ s s1 : SaberClient, es.all notStart = true → s.has_started = false →
      run P s es = some s1 →
      s1.has_started = false ∧ connects s1.trace = connects s.trace := by
  induction es with
  | nil => intro s s1 _ hs h; simp [run] at h; subst h; exact ⟨hs, rfl⟩
  | cons e es ih =>
    intro s s1 hes hs h
    simp only [List.all_cons, Bool.and_eq_true] at hes
    simp only [run] at h
    cases hstep : step P s e with
    | none => simp [hstep] at h
    | some s2 =>
      simp only [hstep] at h
      obtain ⟨h1, h2⟩ := step_notStart P s s2 e hes.1 hs hstep
      obtain ⟨h3, h4⟩ := ih s2 s1 hes.2 h1 h
      exact ⟨h3, by rw [h4, h2]⟩

end saber

/-! ## Master hint and stopped clients -/

namespace saber

open SaberClient

theorem OnClose_has_started (s : SaberClient) (p : ConnId) :
    (s.OnClose p).has_started = s.has_started := by
  unfold OnClose; split
  · split <;> rfl
  · rfl

/-- C11, counterexample: the client is redirected to `10.0.0.2:8889`, connects
to it and is disconnected again, with no MASTER message in between.  The
server manager would hand out `127.0.0.1:8888`, but the second close
reconnects to the old hint. -/
theorem C11_master_hint_counterexample :
    demoRedirected.map (fun s => (connects s.trace, s.server_manager.GetNext.1,
        (s.OnClose 2).trace.drop s.trace.length))
      = some ([⟨"127.0.0.1", 8888⟩, ⟨"10.0.0.2", 8889⟩], ⟨"127.0.0.1", 8888⟩,
          [Effect.connect ⟨"10.0.0.2", 8889⟩]) := by
  decide

/-- C11, as amended: the master hint is kept until a connect failure.  After a
MASTER message recorded a hinted endpoint with a non-empty host, and whatever
events other than a connect failure and a further MASTER message followed
(closes and successful connections to the hinted master included), a close on
the started client reconnects to the hinted endpoint, its port cast to 16
bits, and keeps the hint.  A connect failure clears the hinted host, and the
close after it reconnects, after the 1 ms sleep, to the endpoint returned by
`GetNext()`. -/
theorem C11_hint_kept_until_failure (P : Proto) (s0 s s1 : SaberClient)
    (mm : SaberMessage) (res : Bool) (es : List Event) (p : ConnId)
    (hmm : mm.type = .MT_MASTER) (h0 : HandleMessage P s0 mm = some (s, res))
    (hhost : (P.Master_Parse mm.data).host ≠ "")
    (hes : es.all keepsHint = true) (hrun : run P s es = some s1)
    (hst : s1.has_started = true) :
    (s1.OnClose p).trace = s1.trace ++
      [Effect.connect ⟨(P.Master_Parse mm.data).host,
        (P.Master_Parse mm.data).port % 65536⟩] ∧
    (s1.OnClose p).master = P.Master_Parse mm.data ∧
    s1.OnFailue.master.host = "" ∧
    (s1.OnFailue.OnClose p).trace = s1.OnFailue.trace ++
      [Effect.sleep 1000, Effect.connect s1.OnFailue.server_manager.GetNext.1] := by
  have hm : s.master = P.Master_Parse mm.data := by
    rw [HandleMessage_master P s0 mm hmm] at h0
    by_cases hc : s0.client = none
    · simp [Close, hc] at h0
    · rw [Close_some _ (by simpa using hc)] at h0
      simp at h0
      rw [← h0.1]
  have hm1 : s1.master = P.Master_Parse mm.data := by
    rw [run_keepsHint P es s s1 hes hrun, hm]
  refine ⟨?_, ?_, ?_, ?_⟩
  · rw [OnClose_master s1 p hst (by rw [hm1]; exact hhost), hm1]; rfl
  · rw [OnClose_master_kept, hm1]
  · unfold OnFailue; simp only
  · have hst2 : s1.OnFailue.has_started = true := by
      simp [OnFailue, hst, Connect]
    have hh2 : s1.OnFailue.master.host = "" := by unfold OnFailue; simp only
    simp [OnClose, hst2, hh2, Connect]

/-- Witness of C11 as amended: the session of the counterexample. -/
theorem C11_hint_kept_until_failure_witness :
    ∃ s s1 : SaberClient,
      HandleMessage demoProto (OnConnection demoProto demoClient.Start 1)
        ⟨.MT_MASTER, "10.0.0.2", ""⟩ = some (s, false) ∧
      run demoProto s [.OnClose 1, .OnConnection 2] = some s1 ∧
      s1.has_started = true ∧
      (s1.OnClose 2).trace = s1.trace ++ [Effect.connect ⟨"10.0.0.2", 8889 % 65536⟩] ∧
      s1.OnFailue.master.host = "" := by
  obtain ⟨s, h, -, -, hst, -⟩ := HandleMessage_master_some demoProto
    (OnConnection demoProto demoClient.Start 1) ⟨.MT_MASTER, "10.0.0.2", ""⟩ rfl (by decide)
  have h1 : run demoProto s [.OnClose 1, .OnConnection 2]
      = some (OnConnection demoProto (s.OnClose 1) 2) := rfl
  have hst1 : (OnConnection demoProto (s.OnClose 1) 2).has_started = true := by
    show (s.OnClose 1).has_started = true
    rw [OnClose_has_started, hst]
    decide
  have key := C11_hint_kept_until_failure demoProto
    (OnConnection demoProto demoClient.Start 1) s _ ⟨.MT_MASTER, "10.0.0.2", ""⟩
    false [.OnClose 1, .OnConnection 2] 2 rfl h (by decide) (by decide) h1 hst1
  exact ⟨s, _, h, h1, hst1, key.1, key.2.2.1⟩

/-- C15: `Stop` is terminal for reconnection.  From the state `Stop` leaves and
through any events other than a call of `Start`, the client stays not started
and makes no connection attempt; in the state reached, `OnClose` does nothing
at all and `OnFailue` adds nothing to the trace, whatever the master hint. -/
theorem C15_stop_is_terminal (P : Proto) (s s1 s2 : SaberClient) (es : List Event)
    (p : ConnId) (hstop : s.Stop = some s1) (hes : es.all notStart = true)
    (hrun : run P s1 es = some s2) :
    s2.has_started = false ∧ connects s2.trace = connects s1.trace ∧
    s2.OnClose p = s2 ∧ s2.OnFailue.trace = s2.trace ∧
    connects (s2.OnClose p).trace = connects s2.trace ∧
    connects s2.OnFailue.trace = connects s2.trace := by
  obtain ⟨h1, -⟩ := Stop_frame s s1 hstop
  obtain ⟨h2, h3⟩ := run_notStart P es s1 s2 hes h1 hrun
  refine ⟨h2, h3, OnClose_stopped s2 p h2, (OnFailue_stopped s2 h2).1, ?_, ?_⟩
  · rw [OnClose_stopped s2 p h2]
  · rw [(OnFailue_stopped s2 h2).1]

/-- Witness of C15: a started client with a recorded master hint is stopped,
then its connection closes and a connect attempt fails. -/
theorem C15_stop_is_terminal_witness :
    ∃ s1 s2 : SaberClient, demoHinted.Stop = some s1 ∧
      run demoProto s1 [.OnClose 1, .OnFailue] = some s2 ∧
      s2.has_started = false ∧ connects s2.trace = connects s1.trace ∧
      s2.OnClose 2 = s2 ∧ s2.OnFailue.trace = s2.trace := by
  cases hs1 : demoHinted.Stop with
  | none => exact absurd hs1 (by decide)
  | some s1 =>
    have h1 : run demoProto s1 [.OnClose 1, .OnFailue] = some (s1.OnClose 1).OnFailue := rfl
    have key := C15_stop_is_terminal demoProto demoHinted s1 _ [.OnClose 1, .OnFailue] 2
      hs1 (by decide) h1
    exact ⟨s1, _, rfl, h1, key.1, key.2.1, key.2.2.1, key.2.2.2.1⟩

end saber

/-! ## The outgoing buffer mirrors the pending requests -/

namespace saber

open SaberClient

theorem Op_type_inj (T U : Op) (h : T.type = U.type) : T = U := by
  cases T <;> cases U <;> first | rfl | cases h

theorem pendingRequests_append (T : Op) (l1 l2 : List (Op × Submission)) :
    pendingRequests T (l1 ++ l2) = pendingRequests T l1 ++ pendingRequests T l2 := by
  simp [pendingRequests, List.filter_append]

theorem pendingRequests_cons_self (T : Op) (c : Submission) (l : List (Op × Submission)) :
    pendingRequests T ((T, c) :: l) = pendingOf T c :: pendingRequests T l := by
  simp [pendingRequests, List.filter_cons]

theorem pendingRequests_cons_other (T U : Op) (c : Submission)
    (l : List (Op × Submission)) (h : U ≠ T) :
    pendingRequests U ((T, c) :: l) = pendingRequests U l := by
  have h2 : ¬ T = U := fun e => h e.symm
  simp [pendingRequests, List.filter_cons, h2]

theorem Mirror_call (s : SaberClient) (pend : List (Op × Submission)) (T : Op)
    (c : Submission) (h : Mirror s pend) : Mirror (s.call T c) (pend ++ [(T, c)]) := by
  constructor
  · rw [call_outgoing, call_root, h.1]
    simp [pendingMessages]
  · intro U
    by_cases hU : U = T
    · subst hU
      rw [call_queue_self, h.2 U, pendingRequests_append, pendingRequests_cons_self]
      rfl
    · rw [call_queue_other s T U c hU, h.2 U, pendingRequests_append,
        pendingRequests_cons_other T U c [] hU]
      simp [pendingRequests]

theorem Mirror_response (P : Proto) (s : SaberClient) (T : Op) (c : Submission)
    (rest : List (Op × Submission)) (m : SaberMessage) (h : Mirror s ((T, c) :: rest))
    (hm : m.type = T.type) :
    ∃ s1, HandleMessage P s m = some (s1, true) ∧ Mirror s1 rest ∧
      callbacks s1.trace = callbacks s.trace ++
        [Effect.callback T.type c.cb c.request.path c.context
          (P.Response_Parse T.type m.data)] ∧
      s1.root = s.root ∧ s1.client = s.client ∧ s1.has_started = s.has_started := by
  have ho : s.outgoing_queue = messageOf s.root T c :: pendingMessages s.root rest := by
    rw [h.1]; rfl
  have hq : s.queue T = pendingOf T c :: pendingRequests T rest := by
    rw [h.2 T, pendingRequests_cons_self]
  obtain ⟨s1, h1, ht, hq1, ho1, hother⟩ := HandleMessage_op P T s m _ _ _ _ hm hq ho
  obtain ⟨-, -, hst, hr, -, hcl, -, -⟩ := HandleMessage_op_frame P T s s1 m true hm h1
  refine ⟨s1, h1, ⟨?_, ?_⟩, ?_, hr, hcl, hst⟩
  · rw [ho1, hr]
  · intro U
    by_cases hU : U = T
    · subst hU; exact hq1
    · rw [hother U hU, h.2 U, pendingRequests_cons_other T U c rest hU]
  · rw [ht, callbackTask_pendingOf]
    simp [callbacks_append, callbacks]

theorem Mirror_quiet (s s1 : SaberClient) (pend : List (Op × Submission))
    (hr : s1.root = s.root) (ho : s1.outgoing_queue = s.outgoing_queue)
    (hq : ∀ T, s1.queue T = s.queue T) (h : Mirror s pend) : Mirror s1 pend :=
  ⟨by rw [ho, hr]; exact h.1, fun T => by rw [hq T]; exact h.2 T⟩

theorem Start_quiet (s : SaberClient) :
    s.Start.root = s.root ∧ s.Start.outgoing_queue = s.outgoing_queue ∧
      (∀ T, s.Start.queue T = s.queue T) ∧ callbacks s.Start.trace = callbacks s.trace := by
  unfold Start
  split
  · refine ⟨rfl, rfl, fun T => by cases T <;> rfl, ?_⟩
    simp [Connect, callbacks_append, callbacks]
  · exact ⟨rfl, rfl, fun _ => rfl, rfl⟩

theorem step_client (P : Proto) (s s1 : SaberClient) (e : Event)
    (hinv : s.has_started = true → s.client ≠ none) (h : step P s e = some s1) :
    (s.client ≠ none → s1.client ≠ none) ∧ (s1.has_started = true → s1.client ≠ none) ∧
      (e = .Start → s1.client ≠ none) := by
  cases e with
  | Start =>
    simp only [step] at h; cases h
    cases hs : s.has_started
    · simp [Start, hs, Connect]
    · simp [Start, hs]; exact hinv hs
  | Stop =>
    simp only [step] at h
    obtain ⟨h1, -, -, h2, -⟩ := Stop_frame s s1 h
    refine ⟨fun hc => by rwa [h2], fun h3 => ?_, fun h3 => by cases h3⟩
    rw [h1] at h3; cases h3
  | call T c =>
    simp only [step] at h; cases h
    rw [call_client, call_has_started]
    exact ⟨id, hinv, fun h3 => by cases h3⟩
  | OnConnection p =>
    simp only [step] at h; cases h
    exact ⟨id, hinv, fun h3 => by cases h3⟩
  | OnFailue =>
    simp only [step] at h; cases h
    cases hs : s.has_started
    · simp [OnFailue, hs]
    · simp [OnFailue, hs, Connect]
  | OnClose p =>
    simp only [step] at h; cases h
    cases hs : s.has_started
    · simp [OnClose, hs]
    · refine ⟨fun _ => ?_, fun _ => ?_, fun h3 => by cases h3⟩ <;>
        (simp only [OnClose, hs, if_true]; split <;> simp [Connect])
  | message m =>
    simp only [step] at h
    cases hh : HandleMessage P s m with
    | none => simp [hh] at h
    | some y =>
      obtain ⟨s2, res⟩ := y
      simp [hh] at h
      subst h
      have hfr : s2.client = s.client ∧ s2.has_started = s.has_started := by
        cases hop : isOpType m.type
        · obtain ⟨-, -, -, -, hcl, hst, -, -⟩ := HandleMessage_nonop P s s2 m res hop hh
          exact ⟨hcl, hst⟩
        · obtain ⟨-, hst, hcl, -⟩ := HandleMessage_op_quiet P s s2 m res hop hh
          exact ⟨hcl, hst⟩
      rw [hfr.1, hfr.2]
      exact ⟨id, hinv, fun h3 => by cases h3⟩

theorem HandleMessage_nonop_some (P : Proto) (s : SaberClient) (m : SaberMessage)
    (hop : isOpType m.type = false) (hsw : ¬ (m.type = .MT_SET_WATCHES ∨ m.type = .MT_CLOSE))
    (hma : m.type = .MT_MASTER → s.client ≠ none) :
    ∃ x, HandleMessage P s m = some x := by
  cases hmt : m.type <;> rw [hmt] at hop <;> simp [isOpType] at hop
  case MT_CONNECT => exact ⟨_, HandleMessage_connect P s m hmt⟩
  case MT_NOTIFICATION => exact ⟨_, HandleMessage_notification P s m hmt⟩
  case MT_PING => exact ⟨_, HandleMessage_ping P s m hmt⟩
  case MT_MASTER =>
    obtain ⟨s2, h2, -⟩ := HandleMessage_master_some P s m hmt (hma hmt)
    exact ⟨_, h2⟩
  case MT_SET_WATCHES => exact absurd (Or.inl hmt) hsw
  case MT_CLOSE => exact absurd (Or.inr hmt) hsw

end saber

namespace saber

open SaberClient

theorem run_admissible (P : Proto) (es : List Event) :
    ∀ (s : SaberClient) (b : Bool) (pend : List (Op × Submission)),
      admissible b (pend.map Prod.fst) es = true →
      (b = true → s.client ≠ none) → (s.has_started = true → s.client ≠ none) →
      Mirror s pend →
      ∃ s1, run P s es = some s1 ∧ s1.root = s.root ∧
        (responses es).length ≤ (pend ++ submitted es).length ∧
        Mirror s1 ((pend ++ submitted es).drop (responses es).length) ∧
        callbacks s1.trace = callbacks s.trace ++
          dispatchedCallbacks P (pend ++ submitted es) (responses es) := by
  induction es with
  | nil =>
    intro s b pend _ _ _ hmir
    exact ⟨s, rfl, rfl, by simp [responses], by simpa [responses, submitted] using hmir,
      by simp [responses, dispatchedCallbacks]⟩
  | cons e es ih =>
    intro s b pend hadm hb hinv hmir
    have quiet : ∀ (s2 : SaberClient) (b2 : Bool), step P s e = some s2 →
        responses (e :: es) = responses es → submitted (e :: es) = submitted es →
        admissible b2 (pend.map Prod.fst) es = true → (b2 = true → s2.client ≠ none) →
        s2.root = s.root → s2.outgoing_queue = s.outgoing_queue →
        (∀ T, s2.queue T = s.queue T) → callbacks s2.trace = callbacks s.trace →
        ∃ s1, run P s (e :: es) = some s1 ∧ s1.root = s.root ∧
          (responses (e :: es)).length ≤ (pend ++ submitted (e :: es)).length ∧
          Mirror s1 ((pend ++ submitted (e :: es)).drop (responses (e :: es)).length) ∧
          callbacks s1.trace = callbacks s.trace ++
            dispatchedCallbacks P (pend ++ submitted (e :: es)) (responses (e :: es)) := by
      intro s2 b2 hstep hresp hsub hadm2 hb2 hr ho hq hcb
      obtain ⟨s1, h1, hr1, hlen, hm1, hc1⟩ := ih s2 b2 pend hadm2 hb2
        (step_client P s s2 e hinv hstep).2.1 (Mirror_quiet s s2 pend hr ho hq hmir)
      refine ⟨s1, by simp only [run, hstep]; exact h1, hr1.trans hr, ?_, ?_, ?_⟩
      · rw [hresp, hsub]; exact hlen
      · rw [hresp, hsub]; exact hm1
      · rw [hresp, hsub, hc1, hcb]
    cases e with
    | Start =>
      simp only [admissible] at hadm
      obtain ⟨h1, h2, h3, h4⟩ := Start_quiet s
      exact quiet s.Start true rfl rfl rfl hadm
        (fun _ => (step_client P s s.Start .Start hinv rfl).2.2 rfl) h1 h2 h3 h4
    | Stop =>
      simp only [admissible] at hadm
      have hex : ∃ s2, s.Stop = some s2 := by
        cases hs : s.has_started
        · exact ⟨_, Stop_stopped s hs⟩
        · exact ⟨_, Stop_started s hs (hinv hs)⟩
      obtain ⟨s2, hs2⟩ := hex
      obtain ⟨-, -, h1, hcl, h3, h4, -⟩ := Stop_frame s s2 hs2
      exact quiet s2 b hs2 rfl rfl hadm (fun hb1 => by rw [hcl]; exact hb hb1) h1
        (Stop_outgoing s s2 hs2) h3 h4
    | OnConnection p =>
      simp only [admissible] at hadm
      exact quiet (OnConnection P s p) b rfl rfl rfl hadm hb rfl rfl
        (OnConnection_queue P s p) (OnConnection_callbacks P s p)
    | OnFailue =>
      simp only [admissible] at hadm
      exact quiet s.OnFailue b rfl rfl rfl hadm
        (fun hb1 => (step_client P s s.OnFailue .OnFailue hinv rfl).1 (hb hb1))
        (OnFailue_root s) (OnFailue_outgoing s) (OnFailue_queue s) (OnFailue_callbacks s)
    | OnClose p =>
      simp only [admissible] at hadm
      exact quiet (s.OnClose p) b rfl rfl rfl hadm
        (fun hb1 => (step_client P s (s.OnClose p) (.OnClose p) hinv rfl).1 (hb hb1))
        (OnClose_root s p) (OnClose_outgoing s p) (OnClose_queue s p)
        (OnClose_callbacks s p)
    | call T c =>
      simp only [admissible] at hadm
      have hadm2 : admissible b ((pend ++ [(T, c)]).map Prod.fst) es = true := by
        simpa using hadm
      obtain ⟨s1, h1, hr1, hlen, hm1, hc1⟩ := ih (s.call T c) b (pend ++ [(T, c)]) hadm2
        (fun hb1 => by rw [call_client]; exact hb hb1)
        (fun hs => by rw [call_client]; rw [call_has_started] at hs; exact hinv hs)
        (Mirror_call s pend T c hmir)
      have e1 : pend ++ submitted (.call T c :: es) = pend ++ [(T, c)] ++ submitted es := by
        simp [submitted]
      have e2 : responses (.call T c :: es) = responses es := rfl
      refine ⟨s1, by simp only [run, step]; exact h1, hr1.trans (call_root s T c), ?_, ?_, ?_⟩
      · rw [e1, e2]; exact hlen
      · rw [e1, e2]; exact hm1
      · rw [e1, e2, hc1, call_callbacks]
    | message m =>
      by_cases hop : isOpType m.type = true
      · simp only [admissible, hop, if_true] at hadm
        cases pend with
        | nil => simp at hadm
        | cons x rest =>
          obtain ⟨T, c⟩ := x
          simp only [List.map_cons, Bool.and_eq_true, decide_eq_true_eq] at hadm
          obtain ⟨hT, hadm2⟩ := hadm
          obtain ⟨s2, h2, hm2, hc2, hr2, hcl2, hst2⟩ :=
            Mirror_response P s T c rest m hmir hT.symm
          obtain ⟨s1, h1, hr1, hlen, hm1, hc1⟩ := ih s2 b rest hadm2
            (fun hb1 => by rw [hcl2]; exact hb hb1)
            (fun hs => by rw [hcl2]; rw [hst2] at hs; exact hinv hs) hm2
          have e1 : (T, c) :: rest ++ submitted (.message m :: es)
              = (T, c) :: (rest ++ submitted es) := rfl
          have e2 : responses (.message m :: es) = m :: responses es := by
            simp [responses, hop]
          refine ⟨s1, by simp only [run, step, h2, Option.map_some']; exact h1,
            hr1.trans hr2, ?_, ?_, ?_⟩
          · rw [e1, e2]; simpa using hlen
          · rw [e1, e2]; simpa using hm1
          · rw [e1, e2, hc1, hc2]
            simp [dispatchedCallbacks]
      · have hop2 : isOpType m.type = false := by simpa using hop
        simp only [admissible, hop2, Bool.false_eq_true, if_false] at hadm
        have hfac : (m.type = .MT_MASTER → b = true) ∧
            ¬ (m.type = .MT_SET_WATCHES ∨ m.type = .MT_CLOSE) ∧
            admissible b (pend.map Prod.fst) es = true := by
          by_cases hma : m.type = .MT_MASTER
          · simp only [hma, if_true, Bool.and_eq_true] at hadm
            exact ⟨fun _ => hadm.1, by simp [hma], hadm.2⟩
          · simp only [hma, if_false] at hadm
            by_cases hsw : m.type = .MT_SET_WATCHES ∨ m.type = .MT_CLOSE
            · simp [hsw] at hadm
            · simp only [hsw, if_false] at hadm
              exact ⟨fun h => absurd h hma, hsw, hadm⟩
        obtain ⟨hma, hsw, hadm2⟩ := hfac
        obtain ⟨x, hx⟩ := HandleMessage_nonop_some P s m hop2 hsw (fun h => hb (hma h))
        obtain ⟨s2, res⟩ := x
        obtain ⟨h1, h2, h3, h4, hcl, -, -, -⟩ := HandleMessage_nonop P s s2 m res hop2 hx
        have e2 : responses (.message m :: es) = responses es := by
          simp [responses, hop]
        exact quiet s2 b (by simp only [step, hx, Option.map_some']) e2 rfl hadm2
          (fun hb1 => by rw [hcl]; exact hb hb1) h1 h2 h3 h4

end saber

namespace saber

open SaberClient

theorem admissible_append (es es2 : List Event) :
    ∀ (b : Bool) (pend : List Op), admissible b pend (es ++ es2) = true →
      admissible b pend es = true := by
  induction es with
  | nil => intro b pend _; rfl
  | cons e es ih =>
    intro b pend h
    cases e with
    | Start => simp only [List.cons_append, admissible] at h ⊢; exact ih _ _ h
    | Stop => simp only [List.cons_append, admissible] at h ⊢; exact ih _ _ h
    | call T c => simp only [List.cons_append, admissible] at h ⊢; exact ih _ _ h
    | OnConnection p => simp only [List.cons_append, admissible] at h ⊢; exact ih _ _ h
    | OnFailue => simp only [List.cons_append, admissible] at h ⊢; exact ih _ _ h
    | OnClose p => simp only [List.cons_append, admissible] at h ⊢; exact ih _ _ h
    | message m =>
      simp only [List.cons_append, admissible] at h ⊢
      split at h
      · rename_i hop
        rw [if_pos hop]
        cases pend with
        | nil => simp at h
        | cons T rest =>
          simp only [Bool.and_eq_true] at h ⊢
          exact ⟨h.1, ih _ _ h.2⟩
      · rename_i hop
        rw [if_neg hop]
        split at h
        · rename_i hma
          rw [if_pos hma]
          simp only [Bool.and_eq_true] at h ⊢
          exact ⟨h.1, ih _ _ h.2⟩
        · rename_i hma
          rw [if_neg hma]
          split at h
          · cases h
          · rename_i hsw
            rw [if_neg hsw]
            exact ih _ _ h

theorem length_by_op (pend : List (Op × Submission)) :
    pend.length = (pendingRequests .Create pend).length + (pendingRequests .Delete pend).length
      + (pendingRequests .Exists pend).length + (pendingRequests .GetData pend).length
      + (pendingRequests .SetData pend).length + (pendingRequests .GetACL pend).length
      + (pendingRequests .SetACL pend).length + (pendingRequests .GetChildren pend).length := by
  induction pend with
  | nil => rfl
  | cons x rest ih =>
    obtain ⟨T, c⟩ := x
    cases T <;> simp [pendingRequests, List.filter_cons] at ih ⊢ <;> omega

theorem pendingMessages_filter (root : String) (T : Op) (pend : List (Op × Submission)) :
    (pendingMessages root pend).filter (fun m => decide (m.type = T.type))
      = pendingMessages root (pend.filter (fun x => decide (x.1 = T))) := by
  induction pend with
  | nil => rfl
  | cons x rest ih =>
    obtain ⟨U, c⟩ := x
    by_cases hU : U = T
    · subst hU
      simp only [pendingMessages, List.map_cons, List.filter_cons] at ih ⊢
      simp [messageOf]
      exact ih
    · have hne : ¬ U.type = T.type := fun h => hU (Op_type_inj U T h)
      simp only [pendingMessages, List.map_cons, List.filter_cons] at ih ⊢
      simp [messageOf, hne, hU]
      exact ih

/-- C17: the outgoing buffer mirrors the pending requests.  Take any
interleaving of API calls, `Start`, `Stop`, connection, close and failure
events, NOTIFICATION, PING, CONNECT and MASTER messages and operation
responses in which every operation response carries the type of the oldest
request not yet answered, and stop it after any number of steps `es`.  From a
freshly constructed client the run does not abort, and in the state reached
`outgoing_queue` holds exactly the messages of the calls not yet answered, in
submission order, while the callbacks dispatched so far are those of the
answered calls, in order.  The queue of each operation holds its requests
among the unanswered calls, so the length of `outgoing_queue` is the sum of
the lengths of the eight queues and its messages of type `T` are those of the
requests in the queue of `T`. -/
theorem C17_outgoing_mirrors_pending (P : Proto) (options : ClientOptions)
    (watcher : Option Watcher) (es es2 : List Event)
    (h : admissible false [] (es ++ es2) = true) :
    ∃ s, run P (SaberClient.new options watcher) es = some s ∧
      (responses es).length ≤ (submitted es).length ∧
      s.outgoing_queue
        = pendingMessages options.root ((submitted es).drop (responses es).length) ∧
      callbacks s.trace = dispatchedCallbacks P (submitted es) (responses es) ∧
      (∀ T, s.queue T = pendingRequests T ((submitted es).drop (responses es).length)) ∧
      s.outgoing_queue.length
        = (s.queue .Create).length + (s.queue .Delete).length + (s.queue .Exists).length
          + (s.queue .GetData).length + (s.queue .SetData).length + (s.queue .GetACL).length
          + (s.queue .SetACL).length + (s.queue .GetChildren).length ∧
      (∀ T, s.outgoing_queue.filter (fun m => decide (m.type = T.type))
        = pendingMessages options.root
            (((submitted es).drop (responses es).length).filter
              (fun x => decide (x.1 = T)))) := by
  have hadm := admissible_append es es2 false [] h
  obtain ⟨s, h1, hr, hlen, hmir, hcb⟩ := run_admissible P es
    (SaberClient.new options watcher) false [] hadm (fun hb => by cases hb)
    (fun hs => by simp [SaberClient.new] at hs)
    ⟨rfl, fun T => by cases T <;> rfl⟩
  simp only [List.nil_append] at hlen hmir hcb
  have hroot : s.root = options.root := hr
  have ho : s.outgoing_queue
      = pendingMessages options.root ((submitted es).drop (responses es).length) := by
    rw [hmir.1, hroot]
  refine ⟨s, h1, hlen, ho, ?_, hmir.2, ?_, ?_⟩
  · simpa [SaberClient.new, callbacks] using hcb
  · rw [ho, hmir.2, hmir.2, hmir.2, hmir.2, hmir.2, hmir.2, hmir.2, hmir.2,
      ← length_by_op]
    simp [pendingMessages]
  · intro T
    rw [ho, pendingMessages_filter]

/-- Witness of C17: a `Create` submitted before the connection and a `GetData`
after it, the CREATE response handled and the GETDATA response still to come. -/
theorem C17_outgoing_mirrors_pending_witness :
    admissible false []
      ([.Start, .call .Create demoA, .OnConnection 1, .call .GetData demoK,
        .message ⟨.MT_CREATE, "", ""⟩] ++ [.message ⟨.MT_GETDATA, "", ""⟩]) = true ∧
    ∃ s, run demoProto (SaberClient.new demoOptions (some 7))
        [.Start, .call .Create demoA, .OnConnection 1, .call .GetData demoK,
          .message ⟨.MT_CREATE, "", ""⟩] = some s ∧
      s.outgoing_queue = [⟨.MT_GETDATA, "req-k", ""⟩] ∧
      callbacks s.trace = [Effect.callback .MT_CREATE 11 "/a" 1 ⟨0, ""⟩] :=
  ⟨by decide,
    let ⟨s, h1, _, h3, h4, _⟩ := C17_outgoing_mirrors_pending demoProto demoOptions (some 7)
      [.Start, .call .Create demoA, .OnConnection 1, .call .GetData demoK,
        .message ⟨.MT_CREATE, "", ""⟩] [.message ⟨.MT_GETDATA, "", ""⟩] (by decide)
    ⟨s, h1, h3, h4⟩⟩

end saber
